import Mathlib

/-!
# tbd: overflow guards and the Mach-O driver for `main`

A shallow embedding of `src/guard_overflow.c` and `src/parse_macho_for_main.c`.

Machine integers are natural numbers reduced modulo `2 ^ w`.  A pointer
argument is modelled by the value it points to: a function that may store
through it returns the value the pointee holds afterwards.
-/

namespace Tbd

/-! ## `src/guard_overflow.c` -/

/-- Number of values of a `uint32_t`. -/
def UINT32_SIZE : Nat := 2 ^ 32

/-- Number of values of a `uint64_t`. -/
def UINT64_SIZE : Nat := 2 ^ 64

/-- Run-time faults of the C abstract machine that the guards can reach. -/
inductive Fault where
  | divide_by_zero
  deriving DecidableEq, Repr

/-- Outcome of one call of an overflow guard: the `int` it returns, the value
`*left_in` holds when it returns, and the values stored through `left_in`
during the call, in order. -/
structure guard_result where
  ret : Int
  left_in : Nat
  stores : List Nat
  deriving DecidableEq, Repr

/-- Unsigned division `a / b` of C: undefined when `b` is zero. -/
def c_udiv (a b : Nat) : Except Fault Nat :=
  if b = 0 then .error .divide_by_zero else .ok (a / b)

/-- Embedding of `guard_overflow_add_uint32`; `left_in` is `*left_in` on entry. -/
def guard_overflow_add_uint32 (left_in right : Nat) : guard_result :=
  let left := left_in
  let result := (left + right) % UINT32_SIZE
  if result < left then
    { ret := 1, left_in := left_in, stores := [] }
  else
    { ret := 0, left_in := result, stores := [result] }

/-- Embedding of `guard_overflow_add_uint64`; `left_in` is `*left_in` on entry. -/
def guard_overflow_add_uint64 (left_in right : Nat) : guard_result :=
  let left := left_in
  let result := (left + right) % UINT64_SIZE
  if result < left then
    { ret := 1, left_in := left_in, stores := [] }
  else
    { ret := 0, left_in := result, stores := [result] }

/-- Embedding of `guard_overflow_mul_uint32`; `left_in` is `*left_in` on entry.
The quotient `result / right` is evaluated before the comparison. -/
def guard_overflow_mul_uint32 (left_in right : Nat) : Except Fault guard_result :=
  let left := left_in
  let result := (left * right) % UINT32_SIZE
  match c_udiv result right with
  | .error f => .error f
  | .ok q =>
    if q ≠ left then
      .ok { ret := 1, left_in := left_in, stores := [] }
    else
      .ok { ret := 0, left_in := result, stores := [result] }

/-- Embedding of `guard_overflow_mul_uint64`; `left_in` is `*left_in` on entry.
The quotient `result / right` is evaluated before the comparison. -/
def guard_overflow_mul_uint64 (left_in right : Nat) : Except Fault guard_result :=
  let left := left_in
  let result := (left * right) % UINT64_SIZE
  match c_udiv result right with
  | .error f => .error f
  | .ok q =>
    if q ≠ left then
      .ok { ret := 1, left_in := left_in, stores := [] }
    else
      .ok { ret := 0, left_in := result, stores := [result] }

/-! ## `src/parse_macho_for_main.c`: data -/

/-- A C string holding a path; a `char *` that may be `NULL` is an `Option Path`. -/
abbrev Path := String

/-- Constants that `parse_macho_for_main.c` takes from headers outside the
sources at hand (`fcntl.h`, `errno.h`, `sys/stat.h`, `macho_file.h`,
`tbd.h`, `tbd_for_main.h`, `parse_macho_for_main.h`). -/
structure Consts where
  O_WRONLY : Nat
  O_TRUNC : Nat
  O_EXCL : Nat
  DEFFILEMODE : Nat
  EOVERFLOW : Int
  ENOENT : Int
  EEXIST : Int
  F_TBD_FOR_MAIN_NO_OVERWRITE : Nat
  F_TBD_FOR_MAIN_IGNORE_WARNINGS : Nat
  F_TBD_FOR_MAIN_COMBINE_TBDS : Nat
  O_MACHO_FILE_PARSE_IGNORE_INVALID_FIELDS : Nat
  O_PARSE_MACHO_FOR_MAIN_VERIFY_WRITE_PATH : Nat
  O_TBD_CREATE_IGNORE_FOOTER : Nat
  E_MACHO_FILE_PARSE_NOT_A_MACHO : Nat
  E_MACHO_FILE_PARSE_READ_FAIL : Nat

/-- The member `fields` of `struct tbd_create_info`: the array `exports` and
the members beside it. -/
structure tbd_create_info_fields (E R : Type) where
  exports : E
  others : R

/-- The type `struct tbd_create_info`: `fields` and the members beside it. -/
structure tbd_create_info (E R : Type) where
  fields : tbd_create_info_fields E R
  others : R

/-- The members of `struct tbd_for_main` that this translation unit uses. -/
structure tbd_for_main (E R : Type) where
  info : tbd_create_info E R
  parse_path : Path
  write_path : Option Path
  write_path_length : Nat
  parse_options : Nat
  macho_options : Nat
  write_options : Nat
  flags : Nat

/-- The type `enum parse_macho_for_main_result`. -/
inductive parse_macho_for_main_result where
  | E_PARSE_MACHO_FOR_MAIN_OK
  | E_PARSE_MACHO_FOR_MAIN_NOT_A_MACHO
  | E_PARSE_MACHO_FOR_MAIN_OTHER_ERROR
  deriving DecidableEq, Repr

/-- The type `struct parse_macho_for_main_args`.  The pointees of `magic_in`,
`magic_in_size_in` and `tbd` live in `World`; `retained_info_in` and `global`
are only handed on.  A `FILE *` is a stream number, `NULL` is `none`. -/
structure parse_macho_for_main_args where
  fd : Int
  retained_info_in : Nat
  global : Nat
  dir_path : Path
  dir_path_length : Nat
  name : Path
  name_length : Nat
  dont_handle_non_macho_error : Bool
  print_paths : Bool
  options : Nat
  combine_file : Option Nat
  deriving DecidableEq, Repr

/-- The type `struct handle_macho_file_parse_result_args`; the member `tbd`
points into `World`.  The member `name` is left unset by
`parse_macho_file_for_main`. -/
structure handle_macho_file_parse_result_args where
  retained_info_in : Nat
  global : Nat
  dir_path : Path
  name : Option Path
  parse_result : Nat
  print_paths : Bool
  deriving DecidableEq, Repr

/-- Diagnostics written to `stderr`. -/
inductive Message where
  | stat_failed (write_path : Path) (errno : Int)
  | write_path_not_regular (parse_path : Path)
  | skip_existing_with_paths (dir_path : Path) (name : Option Path) (write_path : Option Path)
  | skip_existing
  | open_failed_with_path (write_path : Option Path) (errno : Int)
  | open_failed (errno : Int)
  | fdopen_failed_with_path (write_path : Option Path) (errno : Int)
  | fdopen_failed (errno : Int)
  | alloc_failed
  deriving DecidableEq, Repr

/-- Calls that leave this translation unit, with the arguments passed. -/
inductive Event where
  | our_read (fd : Int) (offset size : Nat)
  | stat (path : Path)
  | stderr (m : Message)
  | exit (status : Int)
  | open_r (path : Option Path) (length flags mode dir_mode : Nat)
  | remove_file_r (path : Option Path) (length terminator : Nat)
  | fdopen (fd : Int)
  | macho_file_parse_from_file (fd : Int) (magic parse_options macho_options : Nat)
  | handle_macho_file_parse_result (args : handle_macho_file_parse_result_args)
  | handle_macho_file_parse_result_while_recursing (args : handle_macho_file_parse_result_args)
  | tbd_for_main_create_write_path_for_recursing (dir_path : Path) (dir_path_length : Nat)
      (name : Path) (name_length : Nat)
  | tbd_for_main_write_to_file (write_path : Option Path) (write_path_length : Nat)
      (terminator : Option Nat) (file : Nat) (print_paths : Bool)
  | tbd_for_main_write_to_stdout (dir_path : Path)
  | fclose (file : Nat)
  | free (path : Option Path)
  deriving DecidableEq, Repr

/-- The state the driver works on: the `struct tbd_for_main` behind
`args.tbd`, the buffer behind `args.magic_in`, the counter behind
`args.magic_in_size_in`, `errno`, and the calls made so far (oldest first). -/
structure World (E R : Type) where
  tbd : tbd_for_main E R
  magic : List Nat
  magic_in_size : Nat
  errno : Int
  trace : List Event

/-- Store through `create_info`, the address of `args.tbd->info`. -/
def World.store_info {E R : Type} (w : World E R) (info : tbd_create_info E R) : World E R :=
  { w with tbd := { w.tbd with info := info } }

/-- Store `e` to `errno`. -/
def World.set_errno {E R : Type} (w : World E R) (e : Int) : World E R :=
  { w with errno := e }

/-- Store `t` to the `struct tbd_for_main` behind `args.tbd`. -/
def World.set_tbd {E R : Type} (w : World E R) (t : tbd_for_main E R) : World E R :=
  { w with tbd := t }

/-- Store the bytes `m` to the buffer behind `magic_in` and `n` to
`*magic_in_size_in`. -/
def World.set_magic {E R : Type} (w : World E R) (m : List Nat) (n : Nat) : World E R :=
  { w with magic := m, magic_in_size := n }

/-- Record one outgoing call. -/
def World.emit {E R : Type} (w : World E R) (e : Event) : World E R :=
  { w with trace := w.trace ++ [e] }

/-- The calls made between state `w` and the later state `w1`. -/
def World.events_since {E R : Type} (w1 w : World E R) : List Event :=
  w1.trace.drop w.trace.length

/-- What `open_r` hands back: the descriptor, the terminator it stored through
its last argument, and `errno` afterwards. -/
structure open_r_result where
  fd : Int
  terminator : Option Nat
  errno : Int
  deriving DecidableEq, Repr

/-- Functions called by `parse_macho_for_main.c` and defined elsewhere.  Each
sees the state at the call and hands back what it returns and whatever it may
store through its pointer arguments. -/
structure Collab (E R : Type) where
  /-- The value of `*(const uint32_t *)magic_in` for the bytes of the buffer. -/
  load_uint32 : List Nat → Nat
  /-- The bytes read, or `errno` when the result is negative. -/
  our_read : World E R → Int → Nat → Nat → Except Int (List Nat)
  /-- Whether `S_ISREG(st_mode)` holds, or `errno` when the result is negative. -/
  stat : World E R → Path → Except Int Bool
  open_r : World E R → Option Path → Nat → Nat → Nat → Nat → open_r_result
  /-- The value of `errno` after the call. -/
  remove_file_r : World E R → Option Path → Nat → Nat → Int
  /-- The stream (or `NULL`) and `errno` after the call. -/
  fdopen : World E R → Int → Option Nat × Int
  tbd_create_info_clear : tbd_create_info E R → tbd_create_info E R
  /-- The parse result and the `struct tbd_create_info` left behind. -/
  macho_file_parse_from_file :
    World E R → Int → Nat → Nat → Nat → Nat × tbd_create_info E R
  /-- The answer and the `struct tbd_for_main` left behind. -/
  handle_macho_file_parse_result :
    World E R → handle_macho_file_parse_result_args → Bool × tbd_for_main E R
  /-- The answer and the `struct tbd_for_main` left behind. -/
  handle_macho_file_parse_result_while_recursing :
    World E R → handle_macho_file_parse_result_args → Bool × tbd_for_main E R
  /-- The allocated path and its length, or `NULL`. -/
  tbd_for_main_create_write_path_for_recursing :
    World E R → Path → Nat → Path → Nat → Option (Path × Nat)
  tbd_for_main_write_to_file :
    World E R → Option Path → Nat → Option Nat → Nat → Bool → tbd_for_main E R
  tbd_for_main_write_to_stdout : World E R → Path → tbd_for_main E R

/-- How a call ends: it returns a value, or the process ends in `exit`. -/
inductive Completion (α : Type) where
  | returned (value : α)
  | exited (status : Int)
  deriving DecidableEq, Repr

/-! ## `src/parse_macho_for_main.c`: functions -/

section Driver

variable {E R : Type}

/-- Embedding of `clear_create_info`: the info is cleared, its `exports` array
is kept, everything else is overwritten with `orig`. -/
def clear_create_info (X : Collab E R) (info_in orig : tbd_create_info E R) :
    tbd_create_info E R :=
  let cleared := X.tbd_create_info_clear info_in
  let exports := cleared.fields.exports
  let assigned := orig
  { assigned with fields := { assigned.fields with exports := exports } }

/-- Subtraction `a - b` of two `uint64_t` values: the difference modulo
`2 ^ 64`, which wraps around when `b` exceeds `a`. -/
def uint64_sub (a b : Nat) : Nat :=
  (a + UINT64_SIZE - b) % UINT64_SIZE

/-- Embedding of `read_magic`: the `int` returned and the state afterwards.
`sizeof(uint32_t)` is 4 and `read_size` is computed in `uint64_t`. -/
def read_magic (X : Collab E R) (fd : Int) (w : World E R) : Int × World E R :=
  let magic_in_size := w.magic_in_size
  if magic_in_size ≥ 4 then
    (0, w)
  else
    let read_size := uint64_sub 4 magic_in_size
    let w1 := w.emit (.our_read fd magic_in_size read_size)
    match X.our_read w fd magic_in_size read_size with
    | .error e => (1, w1.set_errno e)
    | .ok bytes =>
      (0, w1.set_magic (w.magic.take magic_in_size ++ bytes) 4)

/-- Embedding of `verify_write_path`. -/
def verify_write_path (C : Consts) (X : Collab E R) (w : World E R) :
    Completion Unit × World E R :=
  match w.tbd.write_path with
  | none => (.returned (), w)
  | some write_path =>
    let w1 := w.emit (.stat write_path)
    match X.stat w write_path with
    | .error e =>
      let w2 := w1.set_errno e
      if w2.errno ≠ C.ENOENT then
        (.exited 1, (w2.emit (.stderr (.stat_failed write_path w2.errno))).emit (.exit 1))
      else
        (.returned (), w2)
    | .ok is_reg =>
      if !is_reg then
        (.exited 1,
          (w1.emit (.stderr (.write_path_not_regular w1.tbd.parse_path))).emit (.exit 1))
      else
        (.returned (), w1)

/-- Embedding of `open_file_for_path`: the stream returned, the value of
`*terminator_out` afterwards, and the state afterwards. -/
def open_file_for_path (C : Consts) (X : Collab E R) (args : parse_macho_for_main_args)
    (write_path : Option Path) (write_path_length : Nat) (terminator_out : Option Nat)
    (w : World E R) : Option Nat × Option Nat × World E R :=
  let options := w.tbd.flags
  let flags := if options &&& C.F_TBD_FOR_MAIN_NO_OVERWRITE ≠ 0 then C.O_EXCL else 0
  let opened :=
    X.open_r w write_path write_path_length (C.O_WRONLY ||| C.O_TRUNC ||| flags)
      C.DEFFILEMODE 493
  let w1 :=
    (w.emit (.open_r write_path write_path_length (C.O_WRONLY ||| C.O_TRUNC ||| flags)
        C.DEFFILEMODE 493)).set_errno opened.errno
  let terminator := opened.terminator
  let write_fd := opened.fd
  if write_fd < 0 then
    let w2 :=
      match terminator with
      | some t =>
        (w1.emit (.remove_file_r write_path write_path_length t)).set_errno
          (X.remove_file_r w1 write_path write_path_length t)
      | none => w1
    if options &&& C.F_TBD_FOR_MAIN_IGNORE_WARNINGS = 0 then
      if w2.errno = C.EEXIST then
        if w2.tbd.flags &&& C.F_TBD_FOR_MAIN_IGNORE_WARNINGS ≠ 0 then
          (none, terminator_out, w2)
        else if args.print_paths then
          (none, terminator_out,
            w2.emit (.stderr (.skip_existing_with_paths args.dir_path none write_path)))
        else
          (none, terminator_out, w2.emit (.stderr .skip_existing))
      else if args.print_paths then
        (none, terminator_out, w2.emit (.stderr (.open_failed_with_path write_path w2.errno)))
      else
        (none, terminator_out, w2.emit (.stderr (.open_failed w2.errno)))
    else
      (none, terminator_out, w2)
  else
    let opened_file := X.fdopen w1 write_fd
    let file := opened_file.1
    let w3 := (w1.emit (.fdopen write_fd)).set_errno opened_file.2
    let w4 :=
      if file = none then
        if options &&& C.F_TBD_FOR_MAIN_IGNORE_WARNINGS = 0 then
          if args.print_paths then
            w3.emit (.stderr (.fdopen_failed_with_path write_path w3.errno))
          else
            w3.emit (.stderr (.fdopen_failed w3.errno))
        else
          w3
      else
        w3
    (file, terminator, w4)

/-- Embedding of `open_file_for_path_while_recursing`: the stream returned,
the value of `*terminator_out` afterwards, `*args` afterwards, and the state
afterwards. -/
def open_file_for_path_while_recursing (C : Consts) (X : Collab E R)
    (args : parse_macho_for_main_args) (write_path : Option Path) (write_path_length : Nat)
    (terminator_out : Option Nat) (w : World E R) :
    Option Nat × Option Nat × parse_macho_for_main_args × World E R :=
  match args.combine_file with
  | some file => (some file, terminator_out, args, w)
  | none =>
    let options := w.tbd.flags
    let flags := if options &&& C.F_TBD_FOR_MAIN_NO_OVERWRITE ≠ 0 then C.O_EXCL else 0
    let opened :=
      X.open_r w write_path write_path_length (C.O_WRONLY ||| C.O_TRUNC ||| flags)
        C.DEFFILEMODE 493
    let w1 :=
      (w.emit (.open_r write_path write_path_length (C.O_WRONLY ||| C.O_TRUNC ||| flags)
          C.DEFFILEMODE 493)).set_errno opened.errno
    let terminator := opened.terminator
    let write_fd := opened.fd
    if write_fd < 0 then
      let w2 :=
        match terminator with
        | some t =>
          (w1.emit (.remove_file_r write_path write_path_length t)).set_errno
            (X.remove_file_r w1 write_path write_path_length t)
        | none => w1
      if options &&& C.F_TBD_FOR_MAIN_IGNORE_WARNINGS = 0 then
        if w2.errno = C.EEXIST then
          if w2.tbd.flags &&& C.F_TBD_FOR_MAIN_IGNORE_WARNINGS ≠ 0 then
            (none, terminator_out, args, w2)
          else if args.print_paths then
            (none, terminator_out, args,
              w2.emit (.stderr (.skip_existing_with_paths args.dir_path (some args.name) write_path)))
          else
            (none, terminator_out, args, w2.emit (.stderr .skip_existing))
        else if args.print_paths then
          (none, terminator_out, args,
            w2.emit (.stderr (.open_failed_with_path write_path w2.errno)))
        else
          (none, terminator_out, args, w2.emit (.stderr (.open_failed w2.errno)))
      else
        (none, terminator_out, args, w2)
    else
      let opened_file := X.fdopen w1 write_fd
      let file := opened_file.1
      let w3 := (w1.emit (.fdopen write_fd)).set_errno opened_file.2
      let w4 :=
        if file = none then
          if options &&& C.F_TBD_FOR_MAIN_IGNORE_WARNINGS = 0 then
            if args.print_paths then
              w3.emit (.stderr (.fdopen_failed_with_path write_path w3.errno))
            else
              w3.emit (.stderr (.fdopen_failed w3.errno))
          else
            w3
        else
          w3
      let args1 :=
        if w4.tbd.flags &&& C.F_TBD_FOR_MAIN_COMBINE_TBDS ≠ 0 then
          { args with combine_file := file }
        else
          args
      (file, terminator, args1, w4)

/-- Embedding of `parse_macho_file_for_main`: how the call ends and the state
afterwards. -/
def parse_macho_file_for_main (C : Consts) (X : Collab E R)
    (args : parse_macho_for_main_args) (w : World E R) :
    Completion parse_macho_for_main_result × World E R :=
  let magic_read := read_magic X args.fd w
  let w1 := magic_read.2
  if magic_read.1 ≠ 0 then
    if w1.errno = C.EOVERFLOW then
      (.returned .E_PARSE_MACHO_FOR_MAIN_NOT_A_MACHO, w1)
    else
      let handle_args : handle_macho_file_parse_result_args :=
        { retained_info_in := args.retained_info_in
          global := args.global
          dir_path := args.dir_path
          name := none
          parse_result := C.E_MACHO_FILE_PARSE_READ_FAIL
          print_paths := args.print_paths }
      let handled := X.handle_macho_file_parse_result w1 handle_args
      let w2 := (w1.emit (.handle_macho_file_parse_result handle_args)).set_tbd handled.2
      (.returned .E_PARSE_MACHO_FOR_MAIN_OTHER_ERROR, w2)
  else
    let macho_options :=
      C.O_MACHO_FILE_PARSE_IGNORE_INVALID_FIELDS ||| w1.tbd.macho_options
    let original_info := w1.tbd.info
    let magic := X.load_uint32 w1.magic
    let parsed :=
      X.macho_file_parse_from_file w1 args.fd magic w1.tbd.parse_options macho_options
    let parse_result := parsed.1
    let w2 :=
      (w1.emit (.macho_file_parse_from_file args.fd magic w1.tbd.parse_options
        macho_options)).store_info parsed.2
    if parse_result = C.E_MACHO_FILE_PARSE_NOT_A_MACHO then
      if !args.dont_handle_non_macho_error then
        let handle_args : handle_macho_file_parse_result_args :=
          { retained_info_in := args.retained_info_in
            global := args.global
            dir_path := args.dir_path
            name := none
            parse_result := parse_result
            print_paths := args.print_paths }
        let handled := X.handle_macho_file_parse_result w2 handle_args
        let w3 := (w2.emit (.handle_macho_file_parse_result handle_args)).set_tbd handled.2
        (.returned .E_PARSE_MACHO_FOR_MAIN_NOT_A_MACHO, w3)
      else
        (.returned .E_PARSE_MACHO_FOR_MAIN_NOT_A_MACHO, w2)
    else
      let handle_args : handle_macho_file_parse_result_args :=
        { retained_info_in := args.retained_info_in
          global := args.global
          dir_path := args.dir_path
          name := none
          parse_result := parse_result
          print_paths := args.print_paths }
      let handled := X.handle_macho_file_parse_result w2 handle_args
      let should_continue := handled.1
      let w3 := (w2.emit (.handle_macho_file_parse_result handle_args)).set_tbd handled.2
      if !should_continue then
        (.returned .E_PARSE_MACHO_FOR_MAIN_OTHER_ERROR,
          w3.store_info (clear_create_info X w3.tbd.info original_info))
      else
        let verified :=
          if args.options &&& C.O_PARSE_MACHO_FOR_MAIN_VERIFY_WRITE_PATH ≠ 0 then
            verify_write_path C X w3
          else
            (.returned (), w3)
        match verified.1 with
        | .exited status => (.exited status, verified.2)
        | .returned _ =>
          let w4 := verified.2
          let write_path := w4.tbd.write_path
          let write_path_length := w4.tbd.write_path_length
          if write_path ≠ none then
            let opened := open_file_for_path C X args write_path write_path_length none w4
            let terminator := opened.2.1
            let w5 := opened.2.2
            match opened.1 with
            | none =>
              (.returned .E_PARSE_MACHO_FOR_MAIN_OK,
                w5.store_info (clear_create_info X w5.tbd.info original_info))
            | some file =>
              let w6 :=
                (w5.emit (.tbd_for_main_write_to_file write_path write_path_length
                    terminator file args.print_paths)).set_tbd
                    (X.tbd_for_main_write_to_file w5 write_path write_path_length terminator file
                      args.print_paths)
              let w7 := w6.emit (.fclose file)
              (.returned .E_PARSE_MACHO_FOR_MAIN_OK,
                w7.store_info (clear_create_info X w7.tbd.info original_info))
          else
            let w5 :=
              (w4.emit (.tbd_for_main_write_to_stdout args.dir_path)).set_tbd
                (X.tbd_for_main_write_to_stdout w4 args.dir_path)
            (.returned .E_PARSE_MACHO_FOR_MAIN_OK,
              w5.store_info (clear_create_info X w5.tbd.info original_info))

/-- Embedding of `parse_macho_file_for_main_while_recursing`: how the call
ends, `*args_ptr` afterwards, and the state afterwards. -/
def parse_macho_file_for_main_while_recursing (C : Consts) (X : Collab E R)
    (args_ptr : parse_macho_for_main_args) (w : World E R) :
    Completion parse_macho_for_main_result × parse_macho_for_main_args × World E R :=
  let args := args_ptr
  let magic_read := read_magic X args.fd w
  let w1 := magic_read.2
  if magic_read.1 ≠ 0 then
    if w1.errno = C.EOVERFLOW then
      (.returned .E_PARSE_MACHO_FOR_MAIN_NOT_A_MACHO, args_ptr, w1)
    else
      let handle_args : handle_macho_file_parse_result_args :=
        { retained_info_in := args.retained_info_in
          global := args.global
          dir_path := args.dir_path
          name := some args.name
          parse_result := C.E_MACHO_FILE_PARSE_READ_FAIL
          print_paths := args.print_paths }
      let handled := X.handle_macho_file_parse_result_while_recursing w1 handle_args
      let w2 :=
        (w1.emit (.handle_macho_file_parse_result_while_recursing handle_args)).set_tbd
          handled.2
      (.returned .E_PARSE_MACHO_FOR_MAIN_OTHER_ERROR, args_ptr, w2)
  else
    let macho_options :=
      C.O_MACHO_FILE_PARSE_IGNORE_INVALID_FIELDS ||| w1.tbd.macho_options
    let original_info := w1.tbd.info
    let magic := X.load_uint32 w1.magic
    let parsed :=
      X.macho_file_parse_from_file w1 args.fd magic w1.tbd.parse_options macho_options
    let parse_result := parsed.1
    let w2 :=
      (w1.emit (.macho_file_parse_from_file args.fd magic w1.tbd.parse_options
        macho_options)).store_info parsed.2
    if parse_result = C.E_MACHO_FILE_PARSE_NOT_A_MACHO then
      if !args.dont_handle_non_macho_error then
        let handle_args : handle_macho_file_parse_result_args :=
          { retained_info_in := args.retained_info_in
            global := args.global
            dir_path := args.dir_path
            name := some args.name
            parse_result := parse_result
            print_paths := args.print_paths }
        let handled := X.handle_macho_file_parse_result_while_recursing w2 handle_args
        let w3 :=
          (w2.emit (.handle_macho_file_parse_result_while_recursing handle_args)).set_tbd
            handled.2
        (.returned .E_PARSE_MACHO_FOR_MAIN_NOT_A_MACHO, args_ptr, w3)
      else
        (.returned .E_PARSE_MACHO_FOR_MAIN_NOT_A_MACHO, args_ptr, w2)
    else
      let handle_args : handle_macho_file_parse_result_args :=
        { retained_info_in := args.retained_info_in
          global := args.global
          dir_path := args.dir_path
          name := some args.name
          parse_result := parse_result
          print_paths := args.print_paths }
      let handled := X.handle_macho_file_parse_result_while_recursing w2 handle_args
      let should_continue := handled.1
      let w3 :=
        (w2.emit (.handle_macho_file_parse_result_while_recursing handle_args)).set_tbd
          handled.2
      if !should_continue then
        (.returned .E_PARSE_MACHO_FOR_MAIN_OTHER_ERROR, args_ptr,
          w3.store_info (clear_create_info X w3.tbd.info original_info))
      else
        let should_combine : Bool :=
          decide (w3.tbd.flags &&& C.F_TBD_FOR_MAIN_COMBINE_TBDS ≠ 0)
        let prepared : Completion (Option Path × Nat) × World E R :=
          if !should_combine then
            let w4 :=
              w3.emit (.tbd_for_main_create_write_path_for_recursing args.dir_path
                args.dir_path_length args.name args.name_length)
            match X.tbd_for_main_create_write_path_for_recursing w3 args.dir_path
                args.dir_path_length args.name args.name_length with
            | none => (.exited 1, (w4.emit (.stderr .alloc_failed)).emit (.exit 1))
            | some created => (.returned (some created.1, created.2), w4)
          else
            (.returned (w3.tbd.write_path, w3.tbd.write_path_length),
              w3.set_tbd { w3.tbd with
                write_options := w3.tbd.write_options ||| C.O_TBD_CREATE_IGNORE_FOOTER })
        match prepared.1 with
        | .exited status => (.exited status, args_ptr, prepared.2)
        | .returned path_and_length =>
          let write_path := path_and_length.1
          let write_path_length := path_and_length.2
          let w4 := prepared.2
          let opened :=
            open_file_for_path_while_recursing C X args_ptr write_path write_path_length
              none w4
          let terminator := opened.2.1
          let args_ptr1 := opened.2.2.1
          let w5 := opened.2.2.2
          match opened.1 with
          | none =>
            let w6 := if !should_combine then w5.emit (.free write_path) else w5
            (.returned .E_PARSE_MACHO_FOR_MAIN_OTHER_ERROR, args_ptr1,
              w6.store_info (clear_create_info X w6.tbd.info original_info))
          | some file =>
            let w6 :=
              (w5.emit (.tbd_for_main_write_to_file write_path write_path_length
                  terminator file args.print_paths)).set_tbd
                  (X.tbd_for_main_write_to_file w5 write_path write_path_length terminator file
                    args.print_paths)
            let w7 :=
              if !should_combine then (w6.emit (.fclose file)).emit (.free write_path)
              else w6
            (.returned .E_PARSE_MACHO_FOR_MAIN_OK, args_ptr1,
              w7.store_info (clear_create_info X w7.tbd.info original_info))

/-! ### The drivers cut at the call of the parser and at the answer of the handler

These restate the later parts of the two drivers with the state reached so
far as an argument; `parse_macho_file_for_main_eq` and
`parse_macho_file_for_main_while_recursing_eq` show that the drivers are exactly
their first statements followed by these parts. -/

/-- The statements of `parse_macho_file_for_main` that follow a true
`should_continue`, from state `w3`. -/
def parse_macho_file_for_main.after_handle (C : Consts) (X : Collab E R)
    (args : parse_macho_for_main_args) (original_info : tbd_create_info E R)
    (w3 : World E R) : Completion parse_macho_for_main_result × World E R :=
  let verified :=
    if args.options &&& C.O_PARSE_MACHO_FOR_MAIN_VERIFY_WRITE_PATH ≠ 0 then
      verify_write_path C X w3
    else
      (.returned (), w3)
  match verified.1 with
  | .exited status => (.exited status, verified.2)
  | .returned _ =>
    let w4 := verified.2
    let write_path := w4.tbd.write_path
    let write_path_length := w4.tbd.write_path_length
    if write_path ≠ none then
      let opened := open_file_for_path C X args write_path write_path_length none w4
      let terminator := opened.2.1
      let w5 := opened.2.2
      match opened.1 with
      | none =>
        (.returned .E_PARSE_MACHO_FOR_MAIN_OK,
          w5.store_info (clear_create_info X w5.tbd.info original_info))
      | some file =>
        let w6 :=
          (w5.emit (.tbd_for_main_write_to_file write_path write_path_length
              terminator file args.print_paths)).set_tbd
              (X.tbd_for_main_write_to_file w5 write_path write_path_length terminator file
                args.print_paths)
        let w7 := w6.emit (.fclose file)
        (.returned .E_PARSE_MACHO_FOR_MAIN_OK,
          w7.store_info (clear_create_info X w7.tbd.info original_info))
    else
      let w5 :=
        (w4.emit (.tbd_for_main_write_to_stdout args.dir_path)).set_tbd
          (X.tbd_for_main_write_to_stdout w4 args.dir_path)
      (.returned .E_PARSE_MACHO_FOR_MAIN_OK,
        w5.store_info (clear_create_info X w5.tbd.info original_info))

/-- The statements of `parse_macho_file_for_main` that follow a successful
`read_magic`, from state `w1`. -/
def parse_macho_file_for_main.after_read (C : Consts) (X : Collab E R)
    (args : parse_macho_for_main_args) (w1 : World E R) :
    Completion parse_macho_for_main_result × World E R :=
  let macho_options :=
    C.O_MACHO_FILE_PARSE_IGNORE_INVALID_FIELDS ||| w1.tbd.macho_options
  let original_info := w1.tbd.info
  let magic := X.load_uint32 w1.magic
  let parsed :=
    X.macho_file_parse_from_file w1 args.fd magic w1.tbd.parse_options macho_options
  let parse_result := parsed.1
  let w2 :=
    (w1.emit (.macho_file_parse_from_file args.fd magic w1.tbd.parse_options
      macho_options)).store_info parsed.2
  if parse_result = C.E_MACHO_FILE_PARSE_NOT_A_MACHO then
    if !args.dont_handle_non_macho_error then
      let handle_args : handle_macho_file_parse_result_args :=
        { retained_info_in := args.retained_info_in
          global := args.global
          dir_path := args.dir_path
          name := none
          parse_result := parse_result
          print_paths := args.print_paths }
      let handled := X.handle_macho_file_parse_result w2 handle_args
      let w3 := (w2.emit (.handle_macho_file_parse_result handle_args)).set_tbd handled.2
      (.returned .E_PARSE_MACHO_FOR_MAIN_NOT_A_MACHO, w3)
    else
      (.returned .E_PARSE_MACHO_FOR_MAIN_NOT_A_MACHO, w2)
  else
    let handle_args : handle_macho_file_parse_result_args :=
      { retained_info_in := args.retained_info_in
        global := args.global
        dir_path := args.dir_path
        name := none
        parse_result := parse_result
        print_paths := args.print_paths }
    let handled := X.handle_macho_file_parse_result w2 handle_args
    let should_continue := handled.1
    let w3 := (w2.emit (.handle_macho_file_parse_result handle_args)).set_tbd handled.2
    if !should_continue then
      (.returned .E_PARSE_MACHO_FOR_MAIN_OTHER_ERROR,
        w3.store_info (clear_create_info X w3.tbd.info original_info))
    else
      parse_macho_file_for_main.after_handle C X args original_info w3

/-- The statements of `parse_macho_file_for_main_while_recursing` that follow a
true `should_continue`, from state `w3`. -/
def parse_macho_file_for_main_while_recursing.after_handle (C : Consts) (X : Collab E R)
    (args_ptr : parse_macho_for_main_args) (original_info : tbd_create_info E R)
    (w3 : World E R) :
    Completion parse_macho_for_main_result × parse_macho_for_main_args × World E R :=
  let args := args_ptr
  let should_combine : Bool :=
    decide (w3.tbd.flags &&& C.F_TBD_FOR_MAIN_COMBINE_TBDS ≠ 0)
  let prepared : Completion (Option Path × Nat) × World E R :=
    if !should_combine then
      let w4 :=
        w3.emit (.tbd_for_main_create_write_path_for_recursing args.dir_path
          args.dir_path_length args.name args.name_length)
      match X.tbd_for_main_create_write_path_for_recursing w3 args.dir_path
          args.dir_path_length args.name args.name_length with
      | none => (.exited 1, (w4.emit (.stderr .alloc_failed)).emit (.exit 1))
      | some created => (.returned (some created.1, created.2), w4)
    else
      (.returned (w3.tbd.write_path, w3.tbd.write_path_length),
        w3.set_tbd { w3.tbd with
          write_options := w3.tbd.write_options ||| C.O_TBD_CREATE_IGNORE_FOOTER })
  match prepared.1 with
  | .exited status => (.exited status, args_ptr, prepared.2)
  | .returned path_and_length =>
    let write_path := path_and_length.1
    let write_path_length := path_and_length.2
    let w4 := prepared.2
    let opened :=
      open_file_for_path_while_recursing C X args_ptr write_path write_path_length
        none w4
    let terminator := opened.2.1
    let args_ptr1 := opened.2.2.1
    let w5 := opened.2.2.2
    match opened.1 with
    | none =>
      let w6 := if !should_combine then w5.emit (.free write_path) else w5
      (.returned .E_PARSE_MACHO_FOR_MAIN_OTHER_ERROR, args_ptr1,
        w6.store_info (clear_create_info X w6.tbd.info original_info))
    | some file =>
      let w6 :=
        (w5.emit (.tbd_for_main_write_to_file write_path write_path_length
            terminator file args.print_paths)).set_tbd
            (X.tbd_for_main_write_to_file w5 write_path write_path_length terminator file
              args.print_paths)
      let w7 :=
        if !should_combine then (w6.emit (.fclose file)).emit (.free write_path)
        else w6
      (.returned .E_PARSE_MACHO_FOR_MAIN_OK, args_ptr1,
        w7.store_info (clear_create_info X w7.tbd.info original_info))

/-- The statements of `parse_macho_file_for_main_while_recursing` that follow a
successful `read_magic`, from state `w1`. -/
def parse_macho_file_for_main_while_recursing.after_read (C : Consts) (X : Collab E R)
    (args_ptr : parse_macho_for_main_args) (w1 : World E R) :
    Completion parse_macho_for_main_result × parse_macho_for_main_args × World E R :=
  let args := args_ptr
  let macho_options :=
    C.O_MACHO_FILE_PARSE_IGNORE_INVALID_FIELDS ||| w1.tbd.macho_options
  let original_info := w1.tbd.info
  let magic := X.load_uint32 w1.magic
  let parsed :=
    X.macho_file_parse_from_file w1 args.fd magic w1.tbd.parse_options macho_options
  let parse_result := parsed.1
  let w2 :=
    (w1.emit (.macho_file_parse_from_file args.fd magic w1.tbd.parse_options
      macho_options)).store_info parsed.2
  if parse_result = C.E_MACHO_FILE_PARSE_NOT_A_MACHO then
    if !args.dont_handle_non_macho_error then
      let handle_args : handle_macho_file_parse_result_args :=
        { retained_info_in := args.retained_info_in
          global := args.global
          dir_path := args.dir_path
          name := some args.name
          parse_result := parse_result
          print_paths := args.print_paths }
      let handled := X.handle_macho_file_parse_result_while_recursing w2 handle_args
      let w3 :=
        (w2.emit (.handle_macho_file_parse_result_while_recursing handle_args)).set_tbd
          handled.2
      (.returned .E_PARSE_MACHO_FOR_MAIN_NOT_A_MACHO, args_ptr, w3)
    else
      (.returned .E_PARSE_MACHO_FOR_MAIN_NOT_A_MACHO, args_ptr, w2)
  else
    let handle_args : handle_macho_file_parse_result_args :=
      { retained_info_in := args.retained_info_in
        global := args.global
        dir_path := args.dir_path
        name := some args.name
        parse_result := parse_result
        print_paths := args.print_paths }
    let handled := X.handle_macho_file_parse_result_while_recursing w2 handle_args
    let should_continue := handled.1
    let w3 :=
      (w2.emit (.handle_macho_file_parse_result_while_recursing handle_args)).set_tbd
        handled.2
    if !should_continue then
      (.returned .E_PARSE_MACHO_FOR_MAIN_OTHER_ERROR, args_ptr,
        w3.store_info (clear_create_info X w3.tbd.info original_info))
    else
      parse_macho_file_for_main_while_recursing.after_handle C X args_ptr original_info w3

/-! ### What a run observes -/

/-- The result the parser hands to a driver started in `w` with a readable
magic: the value of `parse_result` in both drivers. -/
def driver_parse_result (C : Consts) (X : Collab E R) (args : parse_macho_for_main_args)
    (w : World E R) : Nat :=
  let w1 := (read_magic X args.fd w).2
  let macho_options :=
    C.O_MACHO_FILE_PARSE_IGNORE_INVALID_FIELDS ||| w1.tbd.macho_options
  let magic := X.load_uint32 w1.magic
  (X.macho_file_parse_from_file w1 args.fd magic w1.tbd.parse_options macho_options).1

/-- The state in which a driver started in `w` with a readable magic calls the
result handler: the value of `w2` in both drivers. -/
def driver_parsed_world (C : Consts) (X : Collab E R) (args : parse_macho_for_main_args)
    (w : World E R) : World E R :=
  let w1 := (read_magic X args.fd w).2
  let macho_options :=
    C.O_MACHO_FILE_PARSE_IGNORE_INVALID_FIELDS ||| w1.tbd.macho_options
  let magic := X.load_uint32 w1.magic
  let parsed :=
    X.macho_file_parse_from_file w1 args.fd magic w1.tbd.parse_options macho_options
  (w1.emit (.macho_file_parse_from_file args.fd magic w1.tbd.parse_options
    macho_options)).store_info parsed.2

/-- The answer of the result handler to `parse_macho_file_for_main` started in
`w` with a readable magic: the value of `should_continue`. -/
def parse_macho_file_for_main.should_continue (C : Consts) (X : Collab E R)
    (args : parse_macho_for_main_args) (w : World E R) : Bool :=
  (X.handle_macho_file_parse_result (driver_parsed_world C X args w)
    { retained_info_in := args.retained_info_in
      global := args.global
      dir_path := args.dir_path
      name := none
      parse_result := driver_parse_result C X args w
      print_paths := args.print_paths }).1

/-- The answer of the result handler to
`parse_macho_file_for_main_while_recursing` started in `w` with a readable
magic: the value of `should_continue`. -/
def parse_macho_file_for_main_while_recursing.should_continue (C : Consts) (X : Collab E R)
    (args : parse_macho_for_main_args) (w : World E R) : Bool :=
  (X.handle_macho_file_parse_result_while_recursing (driver_parsed_world C X args w)
    { retained_info_in := args.retained_info_in
      global := args.global
      dir_path := args.dir_path
      name := some args.name
      parse_result := driver_parse_result C X args w
      print_paths := args.print_paths }).1

/-- The state in which `parse_macho_file_for_main`, started in `w` with a
readable magic, finds the answer of the result handler: the value of `w3`. -/
def parse_macho_file_for_main.handled_world (C : Consts) (X : Collab E R)
    (args : parse_macho_for_main_args) (w : World E R) : World E R :=
  let handle_args : handle_macho_file_parse_result_args :=
    { retained_info_in := args.retained_info_in
      global := args.global
      dir_path := args.dir_path
      name := none
      parse_result := driver_parse_result C X args w
      print_paths := args.print_paths }
  ((driver_parsed_world C X args w).emit (.handle_macho_file_parse_result handle_args)).set_tbd
    (X.handle_macho_file_parse_result (driver_parsed_world C X args w) handle_args).2

/-- The state in which `parse_macho_file_for_main_while_recursing`, started in
`w` with a readable magic, finds the answer of the result handler: the value of
`w3`. -/
def parse_macho_file_for_main_while_recursing.handled_world (C : Consts) (X : Collab E R)
    (args : parse_macho_for_main_args) (w : World E R) : World E R :=
  let handle_args : handle_macho_file_parse_result_args :=
    { retained_info_in := args.retained_info_in
      global := args.global
      dir_path := args.dir_path
      name := some args.name
      parse_result := driver_parse_result C X args w
      print_paths := args.print_paths }
  ((driver_parsed_world C X args w).emit
      (.handle_macho_file_parse_result_while_recursing handle_args)).set_tbd
    (X.handle_macho_file_parse_result_while_recursing (driver_parsed_world C X args w)
      handle_args).2

/-- The outcome of the optional call of `verify_write_path` in
`parse_macho_file_for_main` started in `w`, after a true `should_continue`:
the value of `verified`. -/
def parse_macho_file_for_main.verified (C : Consts) (X : Collab E R)
    (args : parse_macho_for_main_args) (w : World E R) : Completion Unit × World E R :=
  let w3 := parse_macho_file_for_main.handled_world C X args w
  if args.options &&& C.O_PARSE_MACHO_FOR_MAIN_VERIFY_WRITE_PATH ≠ 0 then
    verify_write_path C X w3
  else
    (.returned (), w3)

/-- What `open_file_for_path` hands to `parse_macho_file_for_main` started in
`w`, after a true `should_continue` and a write path that was accepted: the value
of `opened`. -/
def parse_macho_file_for_main.opened (C : Consts) (X : Collab E R)
    (args : parse_macho_for_main_args) (w : World E R) :
    Option Nat × Option Nat × World E R :=
  let w4 := (parse_macho_file_for_main.verified C X args w).2
  let write_path := w4.tbd.write_path
  let write_path_length := w4.tbd.write_path_length
  open_file_for_path C X args write_path write_path_length none w4

/-- The value of `*create_info`, that is of `args.tbd->info`, at the moment
`parse_macho_file_for_main` started in `w` calls `clear_create_info`: what the
handler left when it answered false, what `open_file_for_path` left when it gave
`NULL`, and otherwise what the writer of the tbd left. -/
def parse_macho_file_for_main.info_before_clear (C : Consts) (X : Collab E R)
    (args : parse_macho_for_main_args) (w : World E R) : tbd_create_info E R :=
  let w3 := parse_macho_file_for_main.handled_world C X args w
  if !parse_macho_file_for_main.should_continue C X args w then
    w3.tbd.info
  else
    let w4 := (parse_macho_file_for_main.verified C X args w).2
    let write_path := w4.tbd.write_path
    let write_path_length := w4.tbd.write_path_length
    if write_path ≠ none then
      let opened := parse_macho_file_for_main.opened C X args w
      let terminator := opened.2.1
      let w5 := opened.2.2
      match opened.1 with
      | none => w5.tbd.info
      | some file =>
        (X.tbd_for_main_write_to_file w5 write_path write_path_length terminator file
          args.print_paths).info
    else
      (X.tbd_for_main_write_to_stdout w4 args.dir_path).info

/-- The write path that `parse_macho_file_for_main_while_recursing` started in
`w` prepares after a true `should_continue`, or the exit when the path cannot
be allocated: the value of `prepared`. -/
def parse_macho_file_for_main_while_recursing.prepared (C : Consts) (X : Collab E R)
    (args : parse_macho_for_main_args) (w : World E R) :
    Completion (Option Path × Nat) × World E R :=
  let w3 := parse_macho_file_for_main_while_recursing.handled_world C X args w
  let should_combine : Bool :=
    decide (w3.tbd.flags &&& C.F_TBD_FOR_MAIN_COMBINE_TBDS ≠ 0)
  if !should_combine then
    let w4 :=
      w3.emit (.tbd_for_main_create_write_path_for_recursing args.dir_path
        args.dir_path_length args.name args.name_length)
    match X.tbd_for_main_create_write_path_for_recursing w3 args.dir_path
        args.dir_path_length args.name args.name_length with
    | none => (.exited 1, (w4.emit (.stderr .alloc_failed)).emit (.exit 1))
    | some created => (.returned (some created.1, created.2), w4)
  else
    (.returned (w3.tbd.write_path, w3.tbd.write_path_length),
      w3.set_tbd { w3.tbd with
        write_options := w3.tbd.write_options ||| C.O_TBD_CREATE_IGNORE_FOOTER })

/-- What `open_file_for_path_while_recursing` hands to
`parse_macho_file_for_main_while_recursing` started in `w`, for the prepared
path and length: the value of `opened`. -/
def parse_macho_file_for_main_while_recursing.opened (C : Consts) (X : Collab E R)
    (args : parse_macho_for_main_args) (w : World E R) (path_and_length : Option Path × Nat) :
    Option Nat × Option Nat × parse_macho_for_main_args × World E R :=
  let write_path := path_and_length.1
  let write_path_length := path_and_length.2
  let w4 := (parse_macho_file_for_main_while_recursing.prepared C X args w).2
  open_file_for_path_while_recursing C X args write_path write_path_length none w4

/-- The value of `*create_info`, that is of `args.tbd->info`, at the moment
`parse_macho_file_for_main_while_recursing` started in `w` calls
`clear_create_info`: what the handler left when it answered false, what
`open_file_for_path_while_recursing` left when it gave `NULL`, and otherwise
what the writer of the tbd left.  (No call is made when the path cannot be
allocated.) -/
def parse_macho_file_for_main_while_recursing.info_before_clear (C : Consts) (X : Collab E R)
    (args : parse_macho_for_main_args) (w : World E R) : tbd_create_info E R :=
  let w3 := parse_macho_file_for_main_while_recursing.handled_world C X args w
  if !parse_macho_file_for_main_while_recursing.should_continue C X args w then
    w3.tbd.info
  else
    let prepared := parse_macho_file_for_main_while_recursing.prepared C X args w
    match prepared.1 with
    | .exited _ => prepared.2.tbd.info
    | .returned path_and_length =>
      let write_path := path_and_length.1
      let write_path_length := path_and_length.2
      let opened :=
        parse_macho_file_for_main_while_recursing.opened C X args w path_and_length
      let terminator := opened.2.1
      let w5 := opened.2.2.2
      match opened.1 with
      | none => w5.tbd.info
      | some file =>
        (X.tbd_for_main_write_to_file w5 write_path write_path_length terminator file
          args.print_paths).info

end Driver

/-! ## Classifying the calls of a trace -/

/-- The option word of a call of the parser. -/
def Event.parse_macho_options : Event → Option Nat
  | .macho_file_parse_from_file _ _ _ macho_options => some macho_options
  | _ => none

/-- Calls made by the helpers of the driver: reads, `stat`, diagnostics, `exit`,
`open_r`, `remove_file_r` and `fdopen`. -/
def Event.local_io : Event → Bool
  | .our_read _ _ _ => true
  | .stat _ => true
  | .stderr _ => true
  | .exit _ => true
  | .open_r _ _ _ _ _ => true
  | .remove_file_r _ _ _ => true
  | .fdopen _ => true
  | _ => false

/-- The flags of a call of `open_r`. -/
def Event.open_r_flags : Event → Option Nat
  | .open_r _ _ flags _ _ => some flags
  | _ => none

/-- The descriptor of a call of `fdopen`. -/
def Event.fdopen_fd : Event → Option Int
  | .fdopen fd => some fd
  | _ => none

/-- The stream of a call of `tbd_for_main_write_to_file`. -/
def Event.written_file : Event → Option Nat
  | .tbd_for_main_write_to_file _ _ _ file _ => some file
  | _ => none

/-- A call that writes the tbd: the stream of `tbd_for_main_write_to_file`, or
`none` for `tbd_for_main_write_to_stdout`. -/
def Event.written : Event → Option (Option Nat)
  | .tbd_for_main_write_to_file _ _ _ file _ => some (some file)
  | .tbd_for_main_write_to_stdout _ => some none
  | _ => none

/-- The flags for `open_r` as the claim words them: `O_WRONLY | O_TRUNC`, with
`O_EXCL` added exactly when `F_TBD_FOR_MAIN_NO_OVERWRITE` is set in the flags of
the tbd. -/
def open_flags_spec (C : Consts) (tbd_flags : Nat) : Nat :=
  if tbd_flags &&& C.F_TBD_FOR_MAIN_NO_OVERWRITE ≠ 0 then
    C.O_WRONLY ||| C.O_TRUNC ||| C.O_EXCL
  else
    C.O_WRONLY ||| C.O_TRUNC

/-! ## Sample inputs -/

/-- Sample constants: the values of Linux for `fcntl.h` and `errno.h`, and
distinct bits for the flags of the program. -/
def sample_consts : Consts :=
  { O_WRONLY := 1
    O_TRUNC := 512
    O_EXCL := 128
    DEFFILEMODE := 438
    EOVERFLOW := 75
    ENOENT := 2
    EEXIST := 17
    F_TBD_FOR_MAIN_NO_OVERWRITE := 4
    F_TBD_FOR_MAIN_IGNORE_WARNINGS := 2
    F_TBD_FOR_MAIN_COMBINE_TBDS := 8
    O_MACHO_FILE_PARSE_IGNORE_INVALID_FIELDS := 1
    O_PARSE_MACHO_FOR_MAIN_VERIFY_WRITE_PATH := 1
    O_TBD_CREATE_IGNORE_FOOTER := 16
    E_MACHO_FILE_PARSE_NOT_A_MACHO := 1
    E_MACHO_FILE_PARSE_READ_FAIL := 2 }

/-- Sample collaborators over `Nat` payloads.  `open_r` gives `open_fd` (and
`errno = EEXIST`), `stat` finds a file that is regular exactly when `is_reg`,
the parser succeeds with result 0 and rewrites the whole info, the handler
continues exactly when the parse result is 0. -/
def sample_collab (open_fd : Int) (is_reg : Bool) : Collab Nat Nat :=
  { load_uint32 := fun bytes => bytes.foldr (fun b acc => b + 256 * acc) 0
    our_read := fun _ _ _ size => .ok (List.replicate size 254)
    stat := fun _ _ => .ok is_reg
    open_r := fun _ _ _ _ _ _ => { fd := open_fd, terminator := none, errno := 17 }
    remove_file_r := fun w _ _ _ => w.errno
    fdopen := fun _ fd => (some fd.toNat, 0)
    tbd_create_info_clear := fun i => { i with fields := { i.fields with exports := 0 } }
    macho_file_parse_from_file := fun _ _ _ _ _ =>
      (0, { fields := { exports := 99, others := 11 }, others := 21 })
    handle_macho_file_parse_result := fun w a => (a.parse_result == 0, w.tbd)
    handle_macho_file_parse_result_while_recursing := fun w a => (a.parse_result == 0, w.tbd)
    tbd_for_main_create_write_path_for_recursing := fun _ _ _ name _ => some (name, 5)
    tbd_for_main_write_to_file := fun w _ _ _ _ _ => w.tbd
    tbd_for_main_write_to_stdout := fun w _ => w.tbd }

/-- Sample collaborators whose `our_read` fails with `errno = EOVERFLOW`; the
rest is `sample_collab 5 true`. -/
def sample_collab_read_fails : Collab Nat Nat :=
  { sample_collab 5 true with our_read := fun _ _ _ _ => .error 75 }

/-- Sample collaborators whose `tbd_create_info_clear` keeps track of the array
it was given: array `n` becomes array `n + 1000`; the rest is
`sample_collab open_fd true`. -/
def sample_collab_clear_tags (open_fd : Int) : Collab Nat Nat :=
  { sample_collab open_fd true with
    tbd_create_info_clear := fun i =>
      { i with fields := { i.fields with exports := i.fields.exports + 1000 } } }

/-- Sample collaborators whose `open_r` gives descriptor 5 and whose `fdopen`
gives `NULL`; the rest is `sample_collab 5 true`. -/
def sample_collab_fdopen_fails : Collab Nat Nat :=
  { sample_collab 5 true with fdopen := fun _ _ => (none, 24) }

/-- Sample collaborators whose `stat` fails with `errno = stat_errno`; the rest
is `sample_collab 5 true`. -/
def sample_collab_stat_fails (stat_errno : Int) : Collab Nat Nat :=
  { sample_collab 5 true with stat := fun _ _ => .error stat_errno }

/-- Sample collaborators for which the write path of the recursing driver cannot
be allocated; the rest is `sample_collab 5 true`. -/
def sample_collab_alloc_fails : Collab Nat Nat :=
  { sample_collab 5 true with
    tbd_for_main_create_write_path_for_recursing := fun _ _ _ _ _ => none }

/-- Sample state: a write path is set, the options word is 6, the flags are
`flags`, nothing was read or called yet. -/
def sample_world (flags : Nat) : World Nat Nat :=
  { tbd :=
      { info := { fields := { exports := 3, others := 10 }, others := 20 }
        parse_path := "in"
        write_path := some "out"
        write_path_length := 3
        parse_options := 0
        macho_options := 6
        write_options := 0
        flags := flags }
    magic := []
    magic_in_size := 0
    errno := 0
    trace := [] }

/-- Sample arguments with `options` as given and no combine file. -/
def sample_args (options : Nat) : parse_macho_for_main_args :=
  { fd := 3
    retained_info_in := 0
    global := 0
    dir_path := "dir"
    dir_path_length := 3
    name := "lib"
    name_length := 3
    dont_handle_non_macho_error := false
    print_paths := true
    options := options
    combine_file := none }

/-- The addition guard as the specification words it: the wrapped sum is
compared to the smaller of the two operands. -/
def checked_add_spec (size a b : Nat) : Option Nat :=
  let result := (a + b) % size
  if result < min a b then none else some result

/-! ## Arithmetic of wrapping sums and products -/

/-- A wrapped sum is below the left operand exactly when the true sum does
not fit in the width. -/
theorem wrapped_add_lt_iff (n a b : Nat) (ha : a < n) (hb : b < n) :
    (a + b) % n < a ↔ n - 1 < a + b := by
  by_cases h : a + b < n
  · rw [Nat.mod_eq_of_lt h]; omega
  · have h1 : (a + b) % n = a + b - n := by
      rw [Nat.mod_eq_sub_mod (by omega), Nat.mod_eq_of_lt (by omega)]
    rw [h1]; omega

/-- A wrapped sum is below the smaller operand exactly when it is below the
left operand. -/
theorem wrapped_add_lt_min_iff (n a b : Nat) (ha : a < n) (hb : b < n) :
    (a + b) % n < min a b ↔ (a + b) % n < a := by
  by_cases h : a + b < n
  · rw [Nat.mod_eq_of_lt h]; omega
  · have h1 : (a + b) % n = a + b - n := by
      rw [Nat.mod_eq_sub_mod (by omega), Nat.mod_eq_of_lt (by omega)]
    rw [h1]; omega

/-- Dividing a wrapped product back by a non-zero right operand misses the
left operand exactly when the true product does not fit in the width. -/
theorem wrapped_mul_div_ne_iff (n a b : Nat) (hn : 0 < n) (hb : 0 < b) :
    (a * b) % n / b ≠ a ↔ n - 1 < a * b := by
  by_cases h : a * b < n
  · rw [Nat.mod_eq_of_lt h, Nat.mul_div_cancel a hb]; omega
  · constructor
    · intro _; omega
    · intro _ hq
      have h1 : (a * b) % n < n := Nat.mod_lt _ hn
      have h2 : a * b ≤ (a * b) % n := by
        calc a * b = (a * b) % n / b * b := by rw [hq]
          _ ≤ (a * b) % n := Nat.div_mul_le_self _ _
      omega

/-! ## Claims about the overflow guards -/

/-- C1: for 32-bit operands `guard_overflow_add_uint32` returns 1 exactly when
the sum `a + b` exceeds `2 ^ 32 - 1`, and otherwise returns 0 and leaves
exactly `a + b` in `*left_in`; `guard_overflow_add_uint64` does the same with
`2 ^ 64 - 1`. -/
theorem guard_overflow_add_exact (a b : Nat) :
    (a < 2 ^ 32 → b < 2 ^ 32 →
      ((guard_overflow_add_uint32 a b).ret = 1 ↔ 2 ^ 32 - 1 < a + b) ∧
      (¬ 2 ^ 32 - 1 < a + b →
        (guard_overflow_add_uint32 a b).ret = 0 ∧
        (guard_overflow_add_uint32 a b).left_in = a + b)) ∧
    (a < 2 ^ 64 → b < 2 ^ 64 →
      ((guard_overflow_add_uint64 a b).ret = 1 ↔ 2 ^ 64 - 1 < a + b) ∧
      (¬ 2 ^ 64 - 1 < a + b →
        (guard_overflow_add_uint64 a b).ret = 0 ∧
        (guard_overflow_add_uint64 a b).left_in = a + b)) := by
  constructor
  · intro ha hb
    have key := wrapped_add_lt_iff (2 ^ 32) a b ha hb
    unfold guard_overflow_add_uint32 UINT32_SIZE
    dsimp only
    split_ifs with h
    · have h2 := key.mp h
      exact ⟨⟨fun _ => h2, fun _ => rfl⟩, fun h3 => absurd h2 h3⟩
    · have h2 : ¬ 2 ^ 32 - 1 < a + b := fun h3 => h (key.mpr h3)
      refine ⟨⟨fun h3 => absurd (show (0 : Int) = 1 from h3) (by decide), fun h3 => absurd h3 h2⟩, fun _ => ⟨rfl, ?_⟩⟩
      exact Nat.mod_eq_of_lt (by omega)
  · intro ha hb
    have key := wrapped_add_lt_iff (2 ^ 64) a b ha hb
    unfold guard_overflow_add_uint64 UINT64_SIZE
    dsimp only
    split_ifs with h
    · have h2 := key.mp h
      exact ⟨⟨fun _ => h2, fun _ => rfl⟩, fun h3 => absurd h2 h3⟩
    · have h2 : ¬ 2 ^ 64 - 1 < a + b := fun h3 => h (key.mpr h3)
      refine ⟨⟨fun h3 => absurd (show (0 : Int) = 1 from h3) (by decide), fun h3 => absurd h3 h2⟩, fun _ => ⟨rfl, ?_⟩⟩
      exact Nat.mod_eq_of_lt (by omega)

/-- Witness of C1: the largest 32-bit value plus one overflows, and `3 + 4` is
returned exactly by the 64-bit guard. -/
theorem guard_overflow_add_exact_witness :
    (guard_overflow_add_uint32 4294967295 1).ret = 1 ∧
    (guard_overflow_add_uint64 3 4).left_in = 3 + 4 :=
  ⟨((guard_overflow_add_exact 4294967295 1).1 (by decide) (by decide)).1.mpr (by decide),
   (((guard_overflow_add_exact 3 4).2 (by decide) (by decide)).2 (by decide)).2⟩

/-- C2: for a non-zero right operand `guard_overflow_mul_uint32` returns, and
returns 1 exactly when the product `a * b` exceeds `2 ^ 32 - 1`; otherwise it
returns 0 and leaves exactly `a * b` in `*left_in`.  The divide-back test is
equivalent to true overflow.  The same holds for `guard_overflow_mul_uint64`
with `2 ^ 64`. -/
theorem guard_overflow_mul_exact (a b : Nat) (hb : b ≠ 0) :
    (a < 2 ^ 32 → b < 2 ^ 32 →
      ∃ r, guard_overflow_mul_uint32 a b = .ok r ∧
        (r.ret = 1 ↔ 2 ^ 32 - 1 < a * b) ∧
        (¬ 2 ^ 32 - 1 < a * b → r.ret = 0 ∧ r.left_in = a * b) ∧
        ((a * b) % 2 ^ 32 / b ≠ a ↔ 2 ^ 32 - 1 < a * b)) ∧
    (a < 2 ^ 64 → b < 2 ^ 64 →
      ∃ r, guard_overflow_mul_uint64 a b = .ok r ∧
        (r.ret = 1 ↔ 2 ^ 64 - 1 < a * b) ∧
        (¬ 2 ^ 64 - 1 < a * b → r.ret = 0 ∧ r.left_in = a * b) ∧
        ((a * b) % 2 ^ 64 / b ≠ a ↔ 2 ^ 64 - 1 < a * b)) := by
  constructor
  · intro _ _
    have key := wrapped_mul_div_ne_iff (2 ^ 32) a b (by norm_num) (Nat.pos_of_ne_zero hb)
    unfold guard_overflow_mul_uint32 c_udiv UINT32_SIZE
    dsimp only
    rw [if_neg hb]
    dsimp only
    split_ifs with h
    · have h2 := key.mp h
      exact ⟨_, rfl, ⟨fun _ => h2, fun _ => rfl⟩, fun h3 => absurd h2 h3, key⟩
    · have h2 : ¬ 2 ^ 32 - 1 < a * b := fun h3 => h (key.mpr h3)
      refine ⟨_, rfl, ⟨fun h3 => absurd (show (0 : Int) = 1 from h3) (by decide),
        fun h3 => absurd h3 h2⟩, fun _ => ⟨rfl, ?_⟩, key⟩
      exact Nat.mod_eq_of_lt (by omega)
  · intro _ _
    have key := wrapped_mul_div_ne_iff (2 ^ 64) a b (by norm_num) (Nat.pos_of_ne_zero hb)
    unfold guard_overflow_mul_uint64 c_udiv UINT64_SIZE
    dsimp only
    rw [if_neg hb]
    dsimp only
    split_ifs with h
    · have h2 := key.mp h
      exact ⟨_, rfl, ⟨fun _ => h2, fun _ => rfl⟩, fun h3 => absurd h2 h3, key⟩
    · have h2 : ¬ 2 ^ 64 - 1 < a * b := fun h3 => h (key.mpr h3)
      refine ⟨_, rfl, ⟨fun h3 => absurd (show (0 : Int) = 1 from h3) (by decide),
        fun h3 => absurd h3 h2⟩, fun _ => ⟨rfl, ?_⟩, key⟩
      exact Nat.mod_eq_of_lt (by omega)

/-- Witness of C2: `65536 * 65536` overflows 32 bits and fits in 64 bits. -/
theorem guard_overflow_mul_exact_witness :
    (65536 : Nat) ≠ 0 ∧
    (∃ r, guard_overflow_mul_uint32 65536 65536 = .ok r ∧ r.ret = 1) ∧
    (∃ r, guard_overflow_mul_uint64 65536 65536 = .ok r ∧ r.ret = 0 ∧
      r.left_in = 65536 * 65536) := by
  refine ⟨by decide, ?_, ?_⟩
  · obtain ⟨r, hr, h1, _⟩ :=
      (guard_overflow_mul_exact 65536 65536 (by decide)).1 (by decide) (by decide)
    exact ⟨r, hr, h1.mpr (by decide)⟩
  · obtain ⟨r, hr, _, h2, _⟩ :=
      (guard_overflow_mul_exact 65536 65536 (by decide)).2 (by decide) (by decide)
    exact ⟨r, hr, h2 (by decide)⟩

/-- C3 (fails on the code): with a zero right operand neither multiplication
guard returns; the divide-back test `result / right` divides by zero, so the
call does not succeed with product zero. -/
theorem guard_overflow_mul_zero_right_faults :
    guard_overflow_mul_uint32 5 0 = .error .divide_by_zero ∧
    guard_overflow_mul_uint64 5 0 = .error .divide_by_zero ∧
    guard_overflow_mul_uint32 0 0 = .error .divide_by_zero ∧
    guard_overflow_mul_uint64 0 0 = .error .divide_by_zero := by
  refine ⟨rfl, rfl, rfl, rfl⟩

/-- C4: whenever one of the four guards returns 1, `*left_in` holds the value
it had on entry and nothing was stored through `left_in`; a store happens only
on the return of 0. -/
theorem guard_overflow_no_store_on_overflow (a b : Nat) :
    (((guard_overflow_add_uint32 a b).ret = 1 →
        (guard_overflow_add_uint32 a b).left_in = a ∧
        (guard_overflow_add_uint32 a b).stores = []) ∧
      ((guard_overflow_add_uint32 a b).stores ≠ [] →
        (guard_overflow_add_uint32 a b).ret = 0)) ∧
    (((guard_overflow_add_uint64 a b).ret = 1 →
        (guard_overflow_add_uint64 a b).left_in = a ∧
        (guard_overflow_add_uint64 a b).stores = []) ∧
      ((guard_overflow_add_uint64 a b).stores ≠ [] →
        (guard_overflow_add_uint64 a b).ret = 0)) ∧
    (∀ r, guard_overflow_mul_uint32 a b = .ok r →
      (r.ret = 1 → r.left_in = a ∧ r.stores = []) ∧ (r.stores ≠ [] → r.ret = 0)) ∧
    (∀ r, guard_overflow_mul_uint64 a b = .ok r →
      (r.ret = 1 → r.left_in = a ∧ r.stores = []) ∧ (r.stores ≠ [] → r.ret = 0)) := by
  refine ⟨?_, ?_, ?_, ?_⟩
  · unfold guard_overflow_add_uint32
    dsimp only
    split_ifs with h
    · exact ⟨fun _ => ⟨rfl, rfl⟩, fun h3 => absurd rfl h3⟩
    · exact ⟨fun h3 => absurd (show (0 : Int) = 1 from h3) (by decide), fun _ => rfl⟩
  · unfold guard_overflow_add_uint64
    dsimp only
    split_ifs with h
    · exact ⟨fun _ => ⟨rfl, rfl⟩, fun h3 => absurd rfl h3⟩
    · exact ⟨fun h3 => absurd (show (0 : Int) = 1 from h3) (by decide), fun _ => rfl⟩
  · intro r hr
    unfold guard_overflow_mul_uint32 c_udiv at hr
    dsimp only at hr
    by_cases hb : b = 0
    · rw [if_pos hb] at hr
      cases hr
    · rw [if_neg hb] at hr
      dsimp only at hr
      split_ifs at hr with h
      · cases hr
        exact ⟨fun _ => ⟨rfl, rfl⟩, fun h3 => absurd rfl h3⟩
      · cases hr
        exact ⟨fun h3 => absurd (show (0 : Int) = 1 from h3) (by decide), fun _ => rfl⟩
  · intro r hr
    unfold guard_overflow_mul_uint64 c_udiv at hr
    dsimp only at hr
    by_cases hb : b = 0
    · rw [if_pos hb] at hr
      cases hr
    · rw [if_neg hb] at hr
      dsimp only at hr
      split_ifs at hr with h
      · cases hr
        exact ⟨fun _ => ⟨rfl, rfl⟩, fun h3 => absurd rfl h3⟩
      · cases hr
        exact ⟨fun h3 => absurd (show (0 : Int) = 1 from h3) (by decide), fun _ => rfl⟩

/-- Witness of C4: an overflowing 32-bit addition and an overflowing 64-bit
multiplication leave the left operand as it was. -/
theorem guard_overflow_no_store_on_overflow_witness :
    ((guard_overflow_add_uint32 4294967295 7).left_in = 4294967295 ∧
      (guard_overflow_add_uint32 4294967295 7).stores = []) ∧
    (guard_overflow_mul_uint64 4294967296 4294967296 =
        .ok { ret := 1, left_in := 4294967296, stores := [] } ∧
      (4294967296 = 4294967296 ∧ ([] : List Nat) = [])) :=
  ⟨((guard_overflow_no_store_on_overflow 4294967295 7).1).1 (by decide),
   rfl,
   ((guard_overflow_no_store_on_overflow 4294967296 4294967296).2.2.2
      { ret := 1, left_in := 4294967296, stores := [] } rfl).1 rfl⟩

/-- C6: the test the code performs, wrapped sum below the left operand, holds
exactly when the wrapped sum is below the smaller operand; so the guard gives
the same verdict and stores the same sum for `(a, b)` as for `(b, a)`, and it
agrees with the addition check worded by the specification. -/
theorem guard_overflow_add_compares_smaller (a b : Nat) :
    (a < 2 ^ 32 → b < 2 ^ 32 →
      ((a + b) % 2 ^ 32 < a ↔ (a + b) % 2 ^ 32 < min a b) ∧
      (guard_overflow_add_uint32 a b).ret = (guard_overflow_add_uint32 b a).ret ∧
      (guard_overflow_add_uint32 a b).stores = (guard_overflow_add_uint32 b a).stores ∧
      ((guard_overflow_add_uint32 a b).ret = 0 →
        (guard_overflow_add_uint32 a b).left_in = (guard_overflow_add_uint32 b a).left_in) ∧
      checked_add_spec (2 ^ 32) a b =
        (if (guard_overflow_add_uint32 a b).ret = 1 then none
         else some (guard_overflow_add_uint32 a b).left_in)) ∧
    (a < 2 ^ 64 → b < 2 ^ 64 →
      ((a + b) % 2 ^ 64 < a ↔ (a + b) % 2 ^ 64 < min a b) ∧
      (guard_overflow_add_uint64 a b).ret = (guard_overflow_add_uint64 b a).ret ∧
      (guard_overflow_add_uint64 a b).stores = (guard_overflow_add_uint64 b a).stores ∧
      ((guard_overflow_add_uint64 a b).ret = 0 →
        (guard_overflow_add_uint64 a b).left_in = (guard_overflow_add_uint64 b a).left_in) ∧
      checked_add_spec (2 ^ 64) a b =
        (if (guard_overflow_add_uint64 a b).ret = 1 then none
         else some (guard_overflow_add_uint64 a b).left_in)) := by
  constructor
  · intro ha hb
    have kab := wrapped_add_lt_iff (2 ^ 32) a b ha hb
    have kba := wrapped_add_lt_iff (2 ^ 32) b a hb ha
    have kmin := wrapped_add_lt_min_iff (2 ^ 32) a b ha hb
    have hc : (b + a) % 2 ^ 32 = (a + b) % 2 ^ 32 := by rw [Nat.add_comm]
    rw [Nat.add_comm b a] at kba
    refine ⟨kmin.symm, ?_⟩
    unfold guard_overflow_add_uint32 checked_add_spec UINT32_SIZE
    dsimp only
    rw [hc]
    by_cases h : (a + b) % 2 ^ 32 < a
    · have h2 : (a + b) % 2 ^ 32 < b := kba.mpr (kab.mp h)
      rw [if_pos h, if_pos h2, if_pos (kmin.mpr h)]
      exact ⟨rfl, rfl, fun h3 => absurd (show (1 : Int) = 0 from h3) (by decide), rfl⟩
    · have h2 : ¬ (a + b) % 2 ^ 32 < b := fun h3 => h (kab.mpr (kba.mp h3))
      rw [if_neg h, if_neg h2, if_neg (fun h3 => h (kmin.mp h3))]
      exact ⟨rfl, rfl, fun _ => rfl, rfl⟩
  · intro ha hb
    have kab := wrapped_add_lt_iff (2 ^ 64) a b ha hb
    have kba := wrapped_add_lt_iff (2 ^ 64) b a hb ha
    have kmin := wrapped_add_lt_min_iff (2 ^ 64) a b ha hb
    have hc : (b + a) % 2 ^ 64 = (a + b) % 2 ^ 64 := by rw [Nat.add_comm]
    rw [Nat.add_comm b a] at kba
    refine ⟨kmin.symm, ?_⟩
    unfold guard_overflow_add_uint64 checked_add_spec UINT64_SIZE
    dsimp only
    rw [hc]
    by_cases h : (a + b) % 2 ^ 64 < a
    · have h2 : (a + b) % 2 ^ 64 < b := kba.mpr (kab.mp h)
      rw [if_pos h, if_pos h2, if_pos (kmin.mpr h)]
      exact ⟨rfl, rfl, fun h3 => absurd (show (1 : Int) = 0 from h3) (by decide), rfl⟩
    · have h2 : ¬ (a + b) % 2 ^ 64 < b := fun h3 => h (kab.mpr (kba.mp h3))
      rw [if_neg h, if_neg h2, if_neg (fun h3 => h (kmin.mp h3))]
      exact ⟨rfl, rfl, fun _ => rfl, rfl⟩

/-- Witness of C6: `(4294967295, 2)` and `(2, 4294967295)` get the same verdict
from the 32-bit guard. -/
theorem guard_overflow_add_compares_smaller_witness :
    (guard_overflow_add_uint32 4294967295 2).ret = (guard_overflow_add_uint32 2 4294967295).ret ∧
    (guard_overflow_add_uint64 10 20).stores = (guard_overflow_add_uint64 20 10).stores :=
  ⟨((guard_overflow_add_compares_smaller 4294967295 2).1 (by decide) (by decide)).2.1,
   ((guard_overflow_add_compares_smaller 10 20).2 (by decide) (by decide)).2.2.1⟩

/-! ## The drivers: state, trace and frame lemmas -/

section DriverFacts

variable {E R : Type}

@[simp]
theorem World.emit_trace (w : World E R) (e : Event) :
    (w.emit e).trace = w.trace ++ [e] := rfl

@[simp]
theorem World.emit_tbd (w : World E R) (e : Event) : (w.emit e).tbd = w.tbd := rfl

@[simp]
theorem World.emit_errno (w : World E R) (e : Event) :
    (w.emit e).errno = w.errno := rfl

@[simp]
theorem World.set_errno_trace (w : World E R) (e : Int) : (w.set_errno e).trace = w.trace := rfl

@[simp]
theorem World.set_errno_tbd (w : World E R) (e : Int) : (w.set_errno e).tbd = w.tbd := rfl

@[simp]
theorem World.set_errno_errno (w : World E R) (e : Int) : (w.set_errno e).errno = e := rfl

@[simp]
theorem World.set_tbd_trace (w : World E R) (t : tbd_for_main E R) :
    (w.set_tbd t).trace = w.trace := rfl

@[simp]
theorem World.set_tbd_tbd (w : World E R) (t : tbd_for_main E R) : (w.set_tbd t).tbd = t := rfl

@[simp]
theorem World.set_magic_trace (w : World E R) (m : List Nat) (n : Nat) :
    (w.set_magic m n).trace = w.trace := rfl

@[simp]
theorem World.set_magic_tbd (w : World E R) (m : List Nat) (n : Nat) :
    (w.set_magic m n).tbd = w.tbd := rfl

@[simp]
theorem World.store_info_trace (w : World E R) (i : tbd_create_info E R) :
    (w.store_info i).trace = w.trace := rfl

@[simp]
theorem World.store_info_info (w : World E R) (i : tbd_create_info E R) :
    (w.store_info i).tbd.info = i := rfl

/-- A later trace is the earlier one followed by the calls made since. -/
theorem World.trace_eq_of_extends {w w1 : World E R} (h : w.trace <+: w1.trace) :
    w1.trace = w.trace ++ w1.events_since w := by
  obtain ⟨t, ht⟩ := h
  unfold World.events_since
  rw [← ht, List.drop_left]

/-- Reading off the classified calls made since `w` from the classified
calls of the whole trace. -/
theorem World.events_since_filterMap {α : Type} {w w1 : World E R} (g : Event → Option α)
    (l : List α) (h : w.trace <+: w1.trace)
    (h2 : w1.trace.filterMap g = w.trace.filterMap g ++ l) :
    (w1.events_since w).filterMap g = l := by
  rw [World.trace_eq_of_extends h, List.filterMap_append] at h2
  exact List.append_cancel_left h2

theorem read_magic_tbd (X : Collab E R) (fd : Int) (w : World E R) :
    (read_magic X fd w).2.tbd = w.tbd := by
  unfold read_magic
  dsimp only
  split_ifs
  · rfl
  · split <;> rfl

theorem read_magic_extends (X : Collab E R) (fd : Int) (w : World E R) :
    w.trace <+: (read_magic X fd w).2.trace := by
  unfold read_magic
  dsimp only
  split_ifs
  · exact List.prefix_refl _
  · split <;> exact List.prefix_append _ _

theorem read_magic_filterMap {α : Type} (g : Event → Option α)
    (hg : ∀ e, e.local_io = true → g e = none) (X : Collab E R) (fd : Int) (w : World E R) :
    (read_magic X fd w).2.trace.filterMap g = w.trace.filterMap g := by
  have h1 : ∀ a b c, g (.our_read a b c) = none := fun _ _ _ => hg _ rfl
  unfold read_magic
  dsimp only
  split_ifs
  · rfl
  · split <;>
      simp only [World.emit_trace, World.set_errno_trace, World.set_magic_trace,
        List.filterMap_append, List.filterMap_cons, List.filterMap_nil, h1, List.append_nil]

theorem verify_write_path_tbd (C : Consts) (X : Collab E R) (w : World E R) :
    (verify_write_path C X w).2.tbd = w.tbd := by
  unfold verify_write_path
  split
  · rfl
  · dsimp only
    split
    · split_ifs <;> rfl
    · split_ifs <;> rfl

theorem verify_write_path_extends (C : Consts) (X : Collab E R) (w : World E R) :
    w.trace <+: (verify_write_path C X w).2.trace := by
  unfold verify_write_path
  split
  · exact List.prefix_refl _
  · dsimp only
    repeat' split
    all_goals
      simp only [World.emit_trace, World.set_errno_trace, List.append_assoc,
        List.prefix_append]

theorem verify_write_path_filterMap {α : Type} (g : Event → Option α)
    (hg : ∀ e, e.local_io = true → g e = none) (C : Consts) (X : Collab E R) (w : World E R) :
    (verify_write_path C X w).2.trace.filterMap g = w.trace.filterMap g := by
  have h1 : ∀ a, g (.stat a) = none := fun _ => hg _ rfl
  have h2 : ∀ a, g (.stderr a) = none := fun _ => hg _ rfl
  have h3 : ∀ a, g (.exit a) = none := fun _ => hg _ rfl
  unfold verify_write_path
  split
  · rfl
  · dsimp only
    repeat' split
    all_goals
      simp only [World.emit_trace, World.set_errno_trace,
        List.filterMap_append, List.filterMap_cons, List.filterMap_nil, h1, h2, h3,
        List.append_nil]

theorem open_file_for_path_tbd (C : Consts) (X : Collab E R) (args : parse_macho_for_main_args)
    (p : Option Path) (l : Nat) (t : Option Nat) (w : World E R) :
    (open_file_for_path C X args p l t w).2.2.tbd = w.tbd := by
  unfold open_file_for_path
  dsimp only
  generalize (if w.tbd.flags &&& C.F_TBD_FOR_MAIN_NO_OVERWRITE ≠ 0 then C.O_EXCL else 0) = fl
  repeat' split
  all_goals rfl

theorem open_file_for_path_extends (C : Consts) (X : Collab E R)
    (args : parse_macho_for_main_args)
    (p : Option Path) (l : Nat) (t : Option Nat) (w : World E R) :
    w.trace <+: (open_file_for_path C X args p l t w).2.2.trace := by
  unfold open_file_for_path
  dsimp only
  generalize (if w.tbd.flags &&& C.F_TBD_FOR_MAIN_NO_OVERWRITE ≠ 0 then C.O_EXCL else 0) = fl
  repeat' split
  all_goals
    simp only [World.emit_trace, World.set_errno_trace, List.append_assoc,
      List.prefix_append]

theorem open_file_for_path_filterMap {α : Type} (g : Event → Option α)
    (hg : ∀ e, e.local_io = true → g e = none) (C : Consts) (X : Collab E R)
    (args : parse_macho_for_main_args)
    (p : Option Path) (l : Nat) (t : Option Nat) (w : World E R) :
    (open_file_for_path C X args p l t w).2.2.trace.filterMap g = w.trace.filterMap g := by
  have h1 : ∀ a b c d e, g (.open_r a b c d e) = none := fun _ _ _ _ _ => hg _ rfl
  have h2 : ∀ a, g (.stderr a) = none := fun _ => hg _ rfl
  have h3 : ∀ a b c, g (.remove_file_r a b c) = none := fun _ _ _ => hg _ rfl
  have h4 : ∀ a, g (.fdopen a) = none := fun _ => hg _ rfl
  unfold open_file_for_path
  dsimp only
  generalize (if w.tbd.flags &&& C.F_TBD_FOR_MAIN_NO_OVERWRITE ≠ 0 then C.O_EXCL else 0) = fl
  repeat' split
  all_goals
    simp only [World.emit_trace, World.set_errno_trace,
      List.filterMap_append, List.filterMap_cons, List.filterMap_nil, h1, h2, h3, h4,
      List.append_nil]


theorem open_file_for_path_while_recursing_tbd (C : Consts) (X : Collab E R)
    (args : parse_macho_for_main_args)
    (p : Option Path) (l : Nat) (t : Option Nat) (w : World E R) :
    (open_file_for_path_while_recursing C X args p l t w).2.2.2.tbd = w.tbd := by
  unfold open_file_for_path_while_recursing
  dsimp only
  generalize (if w.tbd.flags &&& C.F_TBD_FOR_MAIN_NO_OVERWRITE ≠ 0 then C.O_EXCL else 0) = fl
  repeat' split
  all_goals rfl

theorem open_file_for_path_while_recursing_extends (C : Consts) (X : Collab E R)
    (args : parse_macho_for_main_args)
    (p : Option Path) (l : Nat) (t : Option Nat) (w : World E R) :
    w.trace <+: (open_file_for_path_while_recursing C X args p l t w).2.2.2.trace := by
  unfold open_file_for_path_while_recursing
  dsimp only
  generalize (if w.tbd.flags &&& C.F_TBD_FOR_MAIN_NO_OVERWRITE ≠ 0 then C.O_EXCL else 0) = fl
  repeat' split
  all_goals
    first
    | exact List.prefix_refl _
    | simp only [World.emit_trace, World.set_errno_trace, List.append_assoc,
        List.prefix_append]

theorem open_file_for_path_while_recursing_filterMap {α : Type} (g : Event → Option α)
    (hg : ∀ e, e.local_io = true → g e = none) (C : Consts) (X : Collab E R)
    (args : parse_macho_for_main_args)
    (p : Option Path) (l : Nat) (t : Option Nat) (w : World E R) :
    (open_file_for_path_while_recursing C X args p l t w).2.2.2.trace.filterMap g =
      w.trace.filterMap g := by
  have h1 : ∀ a b c d e, g (.open_r a b c d e) = none := fun _ _ _ _ _ => hg _ rfl
  have h2 : ∀ a, g (.stderr a) = none := fun _ => hg _ rfl
  have h3 : ∀ a b c, g (.remove_file_r a b c) = none := fun _ _ _ => hg _ rfl
  have h4 : ∀ a, g (.fdopen a) = none := fun _ => hg _ rfl
  unfold open_file_for_path_while_recursing
  dsimp only
  generalize (if w.tbd.flags &&& C.F_TBD_FOR_MAIN_NO_OVERWRITE ≠ 0 then C.O_EXCL else 0) = fl
  repeat' split
  all_goals
    first
    | rfl
    | simp only [World.emit_trace, World.set_errno_trace,
        List.filterMap_append, List.filterMap_cons, List.filterMap_nil, h1, h2, h3, h4,
        List.append_nil]

theorem read_magic_trace (X : Collab E R) (fd : Int) (w : World E R) :
    (read_magic X fd w).2.trace = w.trace ++ (read_magic X fd w).2.events_since w :=
  World.trace_eq_of_extends (read_magic_extends X fd w)

theorem verify_write_path_trace (C : Consts) (X : Collab E R) (w : World E R) :
    (verify_write_path C X w).2.trace = w.trace ++ (verify_write_path C X w).2.events_since w :=
  World.trace_eq_of_extends (verify_write_path_extends C X w)

theorem open_file_for_path_trace (C : Consts) (X : Collab E R)
    (args : parse_macho_for_main_args)
    (p : Option Path) (l : Nat) (t : Option Nat) (w : World E R) :
    (open_file_for_path C X args p l t w).2.2.trace =
      w.trace ++ (open_file_for_path C X args p l t w).2.2.events_since w :=
  World.trace_eq_of_extends (open_file_for_path_extends C X args p l t w)

theorem open_file_for_path_while_recursing_trace (C : Consts) (X : Collab E R)
    (args : parse_macho_for_main_args)
    (p : Option Path) (l : Nat) (t : Option Nat) (w : World E R) :
    (open_file_for_path_while_recursing C X args p l t w).2.2.2.trace =
      w.trace ++ (open_file_for_path_while_recursing C X args p l t w).2.2.2.events_since w :=
  World.trace_eq_of_extends (open_file_for_path_while_recursing_extends C X args p l t w)

/-- The classifier of parser calls ignores the calls of the helpers. -/
theorem parse_macho_options_local_io (e : Event) (h : e.local_io = true) :
    e.parse_macho_options = none := by
  cases e <;> first | rfl | exact Bool.noConfusion h

/-- The classifier of file writes ignores the calls of the helpers. -/
theorem written_file_local_io (e : Event) (h : e.local_io = true) :
    e.written_file = none := by
  cases e <;> first | rfl | exact Bool.noConfusion h

/-! ### `parse_macho_file_for_main` -/

theorem parse_macho_file_for_main_eq (C : Consts) (X : Collab E R)
    (args : parse_macho_for_main_args) (w : World E R) :
    parse_macho_file_for_main C X args w =
      if (read_magic X args.fd w).1 ≠ 0 then
        if (read_magic X args.fd w).2.errno = C.EOVERFLOW then
          (.returned .E_PARSE_MACHO_FOR_MAIN_NOT_A_MACHO, (read_magic X args.fd w).2)
        else
          (.returned .E_PARSE_MACHO_FOR_MAIN_OTHER_ERROR,
            ((read_magic X args.fd w).2.emit (.handle_macho_file_parse_result
                { retained_info_in := args.retained_info_in
                  global := args.global
                  dir_path := args.dir_path
                  name := none
                  parse_result := C.E_MACHO_FILE_PARSE_READ_FAIL
                  print_paths := args.print_paths })).set_tbd
              (X.handle_macho_file_parse_result (read_magic X args.fd w).2
                { retained_info_in := args.retained_info_in
                  global := args.global
                  dir_path := args.dir_path
                  name := none
                  parse_result := C.E_MACHO_FILE_PARSE_READ_FAIL
                  print_paths := args.print_paths }).2)
      else
        parse_macho_file_for_main.after_read C X args (read_magic X args.fd w).2 := rfl

theorem after_handle_extends (C : Consts) (X : Collab E R) (args : parse_macho_for_main_args)
    (o : tbd_create_info E R) (w3 : World E R) :
    w3.trace <+: (parse_macho_file_for_main.after_handle C X args o w3).2.trace := by
  unfold parse_macho_file_for_main.after_handle
  dsimp only
  repeat' split
  all_goals
    first
    | exact List.prefix_refl _
    | simp only [World.emit_trace, World.set_errno_trace, World.set_tbd_trace,
        World.store_info_trace, verify_write_path_trace,
        open_file_for_path_trace, List.append_assoc, List.prefix_append]

theorem after_handle_parse_macho_options (C : Consts) (X : Collab E R)
    (args : parse_macho_for_main_args) (o : tbd_create_info E R) (w3 : World E R) :
    (parse_macho_file_for_main.after_handle C X args o w3).2.trace.filterMap
        Event.parse_macho_options = w3.trace.filterMap Event.parse_macho_options := by
  unfold parse_macho_file_for_main.after_handle
  dsimp only
  repeat' split
  all_goals
    first
    | rfl
    | simp only [World.emit_trace, World.set_errno_trace, World.set_tbd_trace,
        World.store_info_trace,
        verify_write_path_filterMap _ parse_macho_options_local_io,
        open_file_for_path_filterMap _ parse_macho_options_local_io,
        List.filterMap_append, List.filterMap_cons, List.filterMap_nil,
        Event.parse_macho_options, List.append_nil]

theorem after_read_extends (C : Consts) (X : Collab E R) (args : parse_macho_for_main_args)
    (w1 : World E R) :
    w1.trace <+: (parse_macho_file_for_main.after_read C X args w1).2.trace := by
  unfold parse_macho_file_for_main.after_read
  dsimp only
  repeat' split
  · simp only [World.emit_trace, World.set_errno_trace, World.set_tbd_trace,
      World.store_info_trace, List.append_assoc, List.prefix_append]
  · simp only [World.emit_trace, World.set_errno_trace, World.set_tbd_trace,
      World.store_info_trace, List.append_assoc, List.prefix_append]
  · simp only [World.emit_trace, World.set_errno_trace, World.set_tbd_trace,
      World.store_info_trace, List.append_assoc, List.prefix_append]
  · refine List.IsPrefix.trans ?_ (after_handle_extends C X args _ _)
    simp only [World.emit_trace, World.set_errno_trace, World.set_tbd_trace,
      World.store_info_trace, List.append_assoc, List.prefix_append]

theorem after_read_parse_macho_options (C : Consts) (X : Collab E R)
    (args : parse_macho_for_main_args) (w1 : World E R) :
    (parse_macho_file_for_main.after_read C X args w1).2.trace.filterMap
        Event.parse_macho_options = w1.trace.filterMap Event.parse_macho_options ++
        [C.O_MACHO_FILE_PARSE_IGNORE_INVALID_FIELDS ||| w1.tbd.macho_options] := by
  unfold parse_macho_file_for_main.after_read
  dsimp only
  repeat' split
  all_goals
    simp only [World.emit_trace, World.set_errno_trace, World.set_tbd_trace,
      World.store_info_trace, after_handle_parse_macho_options,
      List.filterMap_append, List.filterMap_cons, List.filterMap_nil,
      Event.parse_macho_options, List.append_nil]

theorem parse_macho_file_for_main_extends (C : Consts) (X : Collab E R)
    (args : parse_macho_for_main_args) (w : World E R) :
    w.trace <+: (parse_macho_file_for_main C X args w).2.trace := by
  rw [parse_macho_file_for_main_eq]
  repeat' split
  · exact read_magic_extends X args.fd w
  · simp only [World.emit_trace, World.set_errno_trace, World.set_tbd_trace,
      World.store_info_trace, read_magic_trace, List.append_assoc, List.prefix_append]
  · exact List.IsPrefix.trans (read_magic_extends X args.fd w) (after_read_extends C X args _)

theorem parse_macho_file_for_main_parse_macho_options (C : Consts) (X : Collab E R)
    (args : parse_macho_for_main_args) (w : World E R) :
    ((parse_macho_file_for_main C X args w).2.events_since w).filterMap
        Event.parse_macho_options =
      if (read_magic X args.fd w).1 = 0 then
        [C.O_MACHO_FILE_PARSE_IGNORE_INVALID_FIELDS ||| w.tbd.macho_options] else [] := by
  apply World.events_since_filterMap _ _ (parse_macho_file_for_main_extends C X args w)
  have h1 := read_magic_filterMap _ parse_macho_options_local_io X args.fd w
  rw [parse_macho_file_for_main_eq]
  by_cases hr : (read_magic X args.fd w).1 = 0
  · rw [if_neg (not_not.mpr hr), if_pos hr, after_read_parse_macho_options, read_magic_tbd, h1]
  · rw [if_pos hr, if_neg hr]
    split
    · rw [h1, List.append_nil]
    · simp only [World.emit_trace, World.set_errno_trace, World.set_tbd_trace,
        World.store_info_trace, h1, List.filterMap_append, List.filterMap_cons,
        List.filterMap_nil,
        Event.parse_macho_options]

/-! ### `parse_macho_file_for_main_while_recursing` -/

theorem parse_macho_file_for_main_while_recursing_eq (C : Consts) (X : Collab E R)
    (args : parse_macho_for_main_args) (w : World E R) :
    parse_macho_file_for_main_while_recursing C X args w =
      if (read_magic X args.fd w).1 ≠ 0 then
        if (read_magic X args.fd w).2.errno = C.EOVERFLOW then
          (.returned .E_PARSE_MACHO_FOR_MAIN_NOT_A_MACHO, args, (read_magic X args.fd w).2)
        else
          (.returned .E_PARSE_MACHO_FOR_MAIN_OTHER_ERROR, args,
            ((read_magic X args.fd w).2.emit (.handle_macho_file_parse_result_while_recursing
                { retained_info_in := args.retained_info_in
                  global := args.global
                  dir_path := args.dir_path
                  name := some args.name
                  parse_result := C.E_MACHO_FILE_PARSE_READ_FAIL
                  print_paths := args.print_paths })).set_tbd
              (X.handle_macho_file_parse_result_while_recursing (read_magic X args.fd w).2
                { retained_info_in := args.retained_info_in
                  global := args.global
                  dir_path := args.dir_path
                  name := some args.name
                  parse_result := C.E_MACHO_FILE_PARSE_READ_FAIL
                  print_paths := args.print_paths }).2)
      else
        parse_macho_file_for_main_while_recursing.after_read C X args
          (read_magic X args.fd w).2 := rfl

theorem rec_after_handle_extends (C : Consts) (X : Collab E R)
    (args : parse_macho_for_main_args) (o : tbd_create_info E R) (w3 : World E R) :
    w3.trace <+:
      (parse_macho_file_for_main_while_recursing.after_handle C X args o w3).2.2.trace := by
  unfold parse_macho_file_for_main_while_recursing.after_handle
  dsimp only
  repeat' split
  all_goals
    first
    | exact List.prefix_refl _
    | simp only [World.emit_trace, World.set_errno_trace, World.set_tbd_trace,
        World.store_info_trace, open_file_for_path_while_recursing_trace, List.append_assoc,
        List.prefix_append]

theorem rec_after_handle_parse_macho_options (C : Consts) (X : Collab E R)
    (args : parse_macho_for_main_args) (o : tbd_create_info E R) (w3 : World E R) :
    (parse_macho_file_for_main_while_recursing.after_handle C X args o w3).2.2.trace.filterMap
        Event.parse_macho_options = w3.trace.filterMap Event.parse_macho_options := by
  unfold parse_macho_file_for_main_while_recursing.after_handle
  dsimp only
  repeat' split
  all_goals
    first
    | rfl
    | simp only [World.emit_trace, World.set_errno_trace, World.set_tbd_trace,
        World.store_info_trace,
        open_file_for_path_while_recursing_filterMap _ parse_macho_options_local_io,
        List.filterMap_append, List.filterMap_cons, List.filterMap_nil,
        Event.parse_macho_options, List.append_nil]

theorem rec_after_read_extends (C : Consts) (X : Collab E R)
    (args : parse_macho_for_main_args) (w1 : World E R) :
    w1.trace <+:
      (parse_macho_file_for_main_while_recursing.after_read C X args w1).2.2.trace := by
  unfold parse_macho_file_for_main_while_recursing.after_read
  dsimp only
  repeat' split
  · simp only [World.emit_trace, World.set_errno_trace, World.set_tbd_trace,
      World.store_info_trace, List.append_assoc, List.prefix_append]
  · simp only [World.emit_trace, World.set_errno_trace, World.set_tbd_trace,
      World.store_info_trace, List.append_assoc, List.prefix_append]
  · simp only [World.emit_trace, World.set_errno_trace, World.set_tbd_trace,
      World.store_info_trace, List.append_assoc, List.prefix_append]
  · refine List.IsPrefix.trans ?_ (rec_after_handle_extends C X args _ _)
    simp only [World.emit_trace, World.set_errno_trace, World.set_tbd_trace,
      World.store_info_trace, List.append_assoc, List.prefix_append]

theorem rec_after_read_parse_macho_options (C : Consts) (X : Collab E R)
    (args : parse_macho_for_main_args) (w1 : World E R) :
    (parse_macho_file_for_main_while_recursing.after_read C X args w1).2.2.trace.filterMap
        Event.parse_macho_options = w1.trace.filterMap Event.parse_macho_options ++
        [C.O_MACHO_FILE_PARSE_IGNORE_INVALID_FIELDS ||| w1.tbd.macho_options] := by
  unfold parse_macho_file_for_main_while_recursing.after_read
  dsimp only
  repeat' split
  all_goals
    simp only [World.emit_trace, World.set_errno_trace, World.set_tbd_trace,
      World.store_info_trace, rec_after_handle_parse_macho_options,
      List.filterMap_append, List.filterMap_cons, List.filterMap_nil,
      Event.parse_macho_options, List.append_nil]

theorem parse_macho_file_for_main_while_recursing_extends (C : Consts) (X : Collab E R)
    (args : parse_macho_for_main_args) (w : World E R) :
    w.trace <+: (parse_macho_file_for_main_while_recursing C X args w).2.2.trace := by
  rw [parse_macho_file_for_main_while_recursing_eq]
  repeat' split
  · exact read_magic_extends X args.fd w
  · simp only [World.emit_trace, World.set_errno_trace, World.set_tbd_trace,
      World.store_info_trace, read_magic_trace, List.append_assoc, List.prefix_append]
  · exact List.IsPrefix.trans (read_magic_extends X args.fd w) (rec_after_read_extends C X args _)

theorem parse_macho_file_for_main_while_recursing_parse_macho_options (C : Consts)
    (X : Collab E R) (args : parse_macho_for_main_args) (w : World E R) :
    ((parse_macho_file_for_main_while_recursing C X args w).2.2.events_since w).filterMap
        Event.parse_macho_options =
      if (read_magic X args.fd w).1 = 0 then
        [C.O_MACHO_FILE_PARSE_IGNORE_INVALID_FIELDS ||| w.tbd.macho_options] else [] := by
  apply World.events_since_filterMap _ _
    (parse_macho_file_for_main_while_recursing_extends C X args w)
  have h1 := read_magic_filterMap _ parse_macho_options_local_io X args.fd w
  rw [parse_macho_file_for_main_while_recursing_eq]
  by_cases hr : (read_magic X args.fd w).1 = 0
  · rw [if_neg (not_not.mpr hr), if_pos hr, rec_after_read_parse_macho_options, read_magic_tbd,
      h1]
  · rw [if_pos hr, if_neg hr]
    split
    · rw [h1, List.append_nil]
    · simp only [World.emit_trace, World.set_errno_trace, World.set_tbd_trace,
        World.store_info_trace, h1, List.filterMap_append, List.filterMap_cons,
        List.filterMap_nil,
        Event.parse_macho_options]

/-! ### The two helpers that open the output file -/

theorem open_flags_spec_eq (C : Consts) (tbd_flags : Nat) :
    C.O_WRONLY ||| C.O_TRUNC |||
      (if tbd_flags &&& C.F_TBD_FOR_MAIN_NO_OVERWRITE ≠ 0 then C.O_EXCL else 0) =
    open_flags_spec C tbd_flags := by
  unfold open_flags_spec
  split_ifs
  · rfl
  · exact Nat.or_zero _

theorem open_file_for_path_open_r_flags (C : Consts) (X : Collab E R)
    (args : parse_macho_for_main_args) (p : Option Path) (l : Nat) (t : Option Nat)
    (w : World E R) :
    ((open_file_for_path C X args p l t w).2.2.events_since w).filterMap Event.open_r_flags =
      [open_flags_spec C w.tbd.flags] := by
  apply World.events_since_filterMap _ _ (open_file_for_path_extends C X args p l t w)
  rw [← open_flags_spec_eq]
  unfold open_file_for_path
  dsimp only
  generalize (if w.tbd.flags &&& C.F_TBD_FOR_MAIN_NO_OVERWRITE ≠ 0 then C.O_EXCL else 0) = fl
  repeat' split
  all_goals
    simp only [World.emit_trace, World.set_errno_trace, List.filterMap_append,
      List.filterMap_cons, List.filterMap_nil, Event.open_r_flags, List.append_nil]

theorem open_file_for_path_while_recursing_open_r_flags (C : Consts) (X : Collab E R)
    (args : parse_macho_for_main_args) (p : Option Path) (l : Nat) (t : Option Nat)
    (w : World E R) :
    ((open_file_for_path_while_recursing C X args p l t w).2.2.2.events_since w).filterMap
        Event.open_r_flags =
      if args.combine_file = none then [open_flags_spec C w.tbd.flags] else [] := by
  apply World.events_since_filterMap _ _
    (open_file_for_path_while_recursing_extends C X args p l t w)
  rw [← open_flags_spec_eq]
  unfold open_file_for_path_while_recursing
  split
  · rename_i f hf
    rw [hf, if_neg (fun h => Option.noConfusion h), List.append_nil]
  · rename_i hf
    rw [hf, if_pos rfl]
    dsimp only
    generalize (if w.tbd.flags &&& C.F_TBD_FOR_MAIN_NO_OVERWRITE ≠ 0 then C.O_EXCL else 0)
      = fl
    repeat' split
    all_goals
      simp only [World.emit_trace, World.set_errno_trace, List.filterMap_append,
        List.filterMap_cons, List.filterMap_nil, Event.open_r_flags, List.append_nil]

theorem open_file_for_path_failure (C : Consts) (X : Collab E R)
    (args : parse_macho_for_main_args) (p : Option Path) (l : Nat) (t : Option Nat)
    (w : World E R)
    (h : (X.open_r w p l (open_flags_spec C w.tbd.flags) C.DEFFILEMODE 493).fd < 0) :
    (open_file_for_path C X args p l t w).1 = none ∧
    (open_file_for_path C X args p l t w).2.1 = t ∧
    ((open_file_for_path C X args p l t w).2.2.events_since w).filterMap Event.fdopen_fd
      = [] := by
  rw [← open_flags_spec_eq] at h
  refine ⟨?_, ?_, ?_⟩
  · unfold open_file_for_path
    dsimp only
    rw [if_pos h]
    repeat' split
    all_goals rfl
  · unfold open_file_for_path
    dsimp only
    rw [if_pos h]
    repeat' split
    all_goals rfl
  · apply World.events_since_filterMap _ _ (open_file_for_path_extends C X args p l t w)
    unfold open_file_for_path
    dsimp only
    rw [if_pos h]
    generalize (if w.tbd.flags &&& C.F_TBD_FOR_MAIN_NO_OVERWRITE ≠ 0 then C.O_EXCL else 0)
      = fl
    repeat' split
    all_goals
      simp only [World.emit_trace, World.set_errno_trace, List.filterMap_append,
        List.filterMap_cons, List.filterMap_nil, Event.fdopen_fd, List.append_nil]

theorem open_file_for_path_while_recursing_failure (C : Consts) (X : Collab E R)
    (args : parse_macho_for_main_args) (p : Option Path) (l : Nat) (t : Option Nat)
    (w : World E R) (hc : args.combine_file = none)
    (h : (X.open_r w p l (open_flags_spec C w.tbd.flags) C.DEFFILEMODE 493).fd < 0) :
    (open_file_for_path_while_recursing C X args p l t w).1 = none ∧
    (open_file_for_path_while_recursing C X args p l t w).2.1 = t ∧
    (open_file_for_path_while_recursing C X args p l t w).2.2.1 = args ∧
    ((open_file_for_path_while_recursing C X args p l t w).2.2.2.events_since w).filterMap
      Event.fdopen_fd = [] := by
  rw [← open_flags_spec_eq] at h
  refine ⟨?_, ?_, ?_, ?_⟩
  · unfold open_file_for_path_while_recursing
    rw [hc]
    dsimp only
    rw [if_pos h]
    repeat' split
    all_goals rfl
  · unfold open_file_for_path_while_recursing
    rw [hc]
    dsimp only
    rw [if_pos h]
    repeat' split
    all_goals rfl
  · unfold open_file_for_path_while_recursing
    rw [hc]
    dsimp only
    rw [if_pos h]
    repeat' split
    all_goals rfl
  · apply World.events_since_filterMap _ _
      (open_file_for_path_while_recursing_extends C X args p l t w)
    unfold open_file_for_path_while_recursing
    rw [hc]
    dsimp only
    rw [if_pos h]
    generalize (if w.tbd.flags &&& C.F_TBD_FOR_MAIN_NO_OVERWRITE ≠ 0 then C.O_EXCL else 0)
      = fl
    repeat' split
    all_goals
      simp only [World.emit_trace, World.set_errno_trace, List.filterMap_append,
        List.filterMap_cons, List.filterMap_nil, Event.fdopen_fd, List.append_nil]

/-! ### Writes to the output file when `open_r` fails -/

theorem open_file_for_path_none_of_fail (C : Consts) (X : Collab E R)
    (hfail : ∀ w0 p0 l0 f0 m0 d0, (X.open_r w0 p0 l0 f0 m0 d0).fd < 0)
    (args : parse_macho_for_main_args) (p : Option Path) (l : Nat) (t : Option Nat)
    (w : World E R) : (open_file_for_path C X args p l t w).1 = none :=
  (open_file_for_path_failure C X args p l t w (hfail _ _ _ _ _ _)).1

theorem open_file_for_path_while_recursing_none_of_fail (C : Consts) (X : Collab E R)
    (hfail : ∀ w0 p0 l0 f0 m0 d0, (X.open_r w0 p0 l0 f0 m0 d0).fd < 0)
    (args : parse_macho_for_main_args) (hc : args.combine_file = none)
    (p : Option Path) (l : Nat) (t : Option Nat)
    (w : World E R) : (open_file_for_path_while_recursing C X args p l t w).1 = none :=
  (open_file_for_path_while_recursing_failure C X args p l t w hc (hfail _ _ _ _ _ _)).1

theorem after_handle_written_file (C : Consts) (X : Collab E R)
    (hfail : ∀ w0 p0 l0 f0 m0 d0, (X.open_r w0 p0 l0 f0 m0 d0).fd < 0)
    (args : parse_macho_for_main_args) (o : tbd_create_info E R) (w3 : World E R) :
    (parse_macho_file_for_main.after_handle C X args o w3).2.trace.filterMap
        Event.written_file = w3.trace.filterMap Event.written_file := by
  unfold parse_macho_file_for_main.after_handle
  dsimp only
  simp only [open_file_for_path_none_of_fail C X hfail]
  repeat' split
  all_goals
    first
    | rfl
    | simp only [World.emit_trace, World.set_errno_trace, World.set_tbd_trace,
        World.store_info_trace,
        verify_write_path_filterMap _ written_file_local_io,
        open_file_for_path_filterMap _ written_file_local_io,
        List.filterMap_append, List.filterMap_cons, List.filterMap_nil,
        Event.written_file, List.append_nil]

theorem after_read_written_file (C : Consts) (X : Collab E R)
    (hfail : ∀ w0 p0 l0 f0 m0 d0, (X.open_r w0 p0 l0 f0 m0 d0).fd < 0)
    (args : parse_macho_for_main_args) (w1 : World E R) :
    (parse_macho_file_for_main.after_read C X args w1).2.trace.filterMap
        Event.written_file = w1.trace.filterMap Event.written_file := by
  unfold parse_macho_file_for_main.after_read
  dsimp only
  repeat' split
  all_goals
    simp only [World.emit_trace, World.set_errno_trace, World.set_tbd_trace,
      World.store_info_trace, after_handle_written_file C X hfail,
      List.filterMap_append, List.filterMap_cons, List.filterMap_nil,
      Event.written_file, List.append_nil]

theorem parse_macho_file_for_main_written_file (C : Consts) (X : Collab E R)
    (hfail : ∀ w0 p0 l0 f0 m0 d0, (X.open_r w0 p0 l0 f0 m0 d0).fd < 0)
    (args : parse_macho_for_main_args) (w : World E R) :
    ((parse_macho_file_for_main C X args w).2.events_since w).filterMap
        Event.written_file = [] := by
  apply World.events_since_filterMap _ _ (parse_macho_file_for_main_extends C X args w)
  have h1 := read_magic_filterMap _ written_file_local_io X args.fd w
  rw [parse_macho_file_for_main_eq, List.append_nil]
  repeat' split
  · exact h1
  · simp only [World.emit_trace, World.set_tbd_trace, h1, List.filterMap_append,
      List.filterMap_cons, List.filterMap_nil, Event.written_file, List.append_nil]
  · rw [after_read_written_file C X hfail, h1]

theorem rec_after_handle_written_file (C : Consts) (X : Collab E R)
    (hfail : ∀ w0 p0 l0 f0 m0 d0, (X.open_r w0 p0 l0 f0 m0 d0).fd < 0)
    (args : parse_macho_for_main_args) (hc : args.combine_file = none)
    (o : tbd_create_info E R) (w3 : World E R) :
    (parse_macho_file_for_main_while_recursing.after_handle C X args o w3).2.2.trace.filterMap
        Event.written_file = w3.trace.filterMap Event.written_file := by
  unfold parse_macho_file_for_main_while_recursing.after_handle
  dsimp only
  simp only [open_file_for_path_while_recursing_none_of_fail C X hfail args hc]
  repeat' split
  all_goals
    first
    | rfl
    | simp only [World.emit_trace, World.set_errno_trace, World.set_tbd_trace,
        World.store_info_trace,
        open_file_for_path_while_recursing_filterMap _ written_file_local_io,
        List.filterMap_append, List.filterMap_cons, List.filterMap_nil,
        Event.written_file, List.append_nil]

theorem rec_after_read_written_file (C : Consts) (X : Collab E R)
    (hfail : ∀ w0 p0 l0 f0 m0 d0, (X.open_r w0 p0 l0 f0 m0 d0).fd < 0)
    (args : parse_macho_for_main_args) (hc : args.combine_file = none) (w1 : World E R) :
    (parse_macho_file_for_main_while_recursing.after_read C X args w1).2.2.trace.filterMap
        Event.written_file = w1.trace.filterMap Event.written_file := by
  unfold parse_macho_file_for_main_while_recursing.after_read
  dsimp only
  repeat' split
  all_goals
    simp only [World.emit_trace, World.set_errno_trace, World.set_tbd_trace,
      World.store_info_trace, rec_after_handle_written_file C X hfail args hc,
      List.filterMap_append, List.filterMap_cons, List.filterMap_nil,
      Event.written_file, List.append_nil]

theorem parse_macho_file_for_main_while_recursing_written_file (C : Consts) (X : Collab E R)
    (hfail : ∀ w0 p0 l0 f0 m0 d0, (X.open_r w0 p0 l0 f0 m0 d0).fd < 0)
    (args : parse_macho_for_main_args) (hc : args.combine_file = none) (w : World E R) :
    ((parse_macho_file_for_main_while_recursing C X args w).2.2.events_since w).filterMap
        Event.written_file = [] := by
  apply World.events_since_filterMap _ _
    (parse_macho_file_for_main_while_recursing_extends C X args w)
  have h1 := read_magic_filterMap _ written_file_local_io X args.fd w
  rw [parse_macho_file_for_main_while_recursing_eq, List.append_nil]
  repeat' split
  · exact h1
  · simp only [World.emit_trace, World.set_tbd_trace, h1, List.filterMap_append,
      List.filterMap_cons, List.filterMap_nil, Event.written_file, List.append_nil]
  · rw [rec_after_read_written_file C X hfail args hc, h1]

/-! ### Result codes and the restored info -/

theorem verify_write_path_result (C : Consts) (X : Collab E R) (w : World E R) :
    (verify_write_path C X w).1 = .returned () ∨ (verify_write_path C X w).1 = .exited 1 := by
  unfold verify_write_path
  split
  · exact Or.inl rfl
  · dsimp only
    repeat' split
    all_goals first | exact Or.inl rfl | exact Or.inr rfl

theorem after_handle_result (C : Consts) (X : Collab E R) (args : parse_macho_for_main_args)
    (o : tbd_create_info E R) (w3 : World E R) :
    (parse_macho_file_for_main.after_handle C X args o w3).1 =
        .returned .E_PARSE_MACHO_FOR_MAIN_OK ∨
    (args.options &&& C.O_PARSE_MACHO_FOR_MAIN_VERIFY_WRITE_PATH ≠ 0 ∧
      (parse_macho_file_for_main.after_handle C X args o w3).1 = .exited 1) := by
  unfold parse_macho_file_for_main.after_handle
  dsimp only
  by_cases hv : args.options &&& C.O_PARSE_MACHO_FOR_MAIN_VERIFY_WRITE_PATH ≠ 0
  · rw [if_pos hv]
    rcases verify_write_path_result C X w3 with h | h
    · rw [h]
      dsimp only
      repeat' split
      all_goals exact Or.inl rfl
    · rw [h]
      exact Or.inr ⟨hv, rfl⟩
  · rw [if_neg hv]
    dsimp only
    repeat' split
    all_goals exact Or.inl rfl

theorem after_handle_info (C : Consts) (X : Collab E R) (args : parse_macho_for_main_args)
    (o : tbd_create_info E R) (w3 : World E R) (r : parse_macho_for_main_result)
    (h : (parse_macho_file_for_main.after_handle C X args o w3).1 = .returned r) :
    ∃ i, (parse_macho_file_for_main.after_handle C X args o w3).2.tbd.info =
      clear_create_info X i o := by
  revert h
  unfold parse_macho_file_for_main.after_handle
  dsimp only
  repeat' split
  all_goals first | exact fun _ => ⟨_, rfl⟩ | exact fun h => Completion.noConfusion h

theorem rec_after_handle_result (C : Consts) (X : Collab E R)
    (hfail : ∀ w0 p0 l0 f0 m0 d0, (X.open_r w0 p0 l0 f0 m0 d0).fd < 0)
    (halloc : ∀ w0 d dl n nl,
      X.tbd_for_main_create_write_path_for_recursing w0 d dl n nl ≠ none)
    (args : parse_macho_for_main_args) (hc : args.combine_file = none)
    (o : tbd_create_info E R) (w3 : World E R) :
    (parse_macho_file_for_main_while_recursing.after_handle C X args o w3).1 =
        .returned .E_PARSE_MACHO_FOR_MAIN_OTHER_ERROR := by
  unfold parse_macho_file_for_main_while_recursing.after_handle
  dsimp only
  simp only [open_file_for_path_while_recursing_none_of_fail C X hfail args hc]
  by_cases hcomb : w3.tbd.flags &&& C.F_TBD_FOR_MAIN_COMBINE_TBDS ≠ 0
  · simp [hcomb]
  · cases hcr : X.tbd_for_main_create_write_path_for_recursing w3 args.dir_path
        args.dir_path_length args.name args.name_length with
    | none => exact absurd hcr (halloc _ _ _ _ _)
    | some created => simp [hcomb, hcr]

theorem rec_after_handle_info (C : Consts) (X : Collab E R)
    (args : parse_macho_for_main_args)
    (o : tbd_create_info E R) (w3 : World E R) (r : parse_macho_for_main_result)
    (h : (parse_macho_file_for_main_while_recursing.after_handle C X args o w3).1 =
      .returned r) :
    ∃ i, (parse_macho_file_for_main_while_recursing.after_handle C X args o w3).2.2.tbd.info =
      clear_create_info X i o := by
  revert h
  unfold parse_macho_file_for_main_while_recursing.after_handle
  dsimp only
  repeat' split
  all_goals first | exact fun _ => ⟨_, rfl⟩ | exact fun h => Completion.noConfusion h

theorem after_read_eq (C : Consts) (X : Collab E R)
    (args : parse_macho_for_main_args) (w : World E R) :
    parse_macho_file_for_main.after_read C X args (read_magic X args.fd w).2 =
      if driver_parse_result C X args w = C.E_MACHO_FILE_PARSE_NOT_A_MACHO then
        if !args.dont_handle_non_macho_error then
          (.returned .E_PARSE_MACHO_FOR_MAIN_NOT_A_MACHO,
            parse_macho_file_for_main.handled_world C X args w)
        else
          (.returned .E_PARSE_MACHO_FOR_MAIN_NOT_A_MACHO, driver_parsed_world C X args w)
      else if !parse_macho_file_for_main.should_continue C X args w then
        (.returned .E_PARSE_MACHO_FOR_MAIN_OTHER_ERROR,
          (parse_macho_file_for_main.handled_world C X args w).store_info
            (clear_create_info X (parse_macho_file_for_main.handled_world C X args w).tbd.info
              (read_magic X args.fd w).2.tbd.info))
      else
        parse_macho_file_for_main.after_handle C X args (read_magic X args.fd w).2.tbd.info
          (parse_macho_file_for_main.handled_world C X args w) := rfl

theorem rec_after_read_eq (C : Consts) (X : Collab E R)
    (args : parse_macho_for_main_args) (w : World E R) :
    parse_macho_file_for_main_while_recursing.after_read C X args (read_magic X args.fd w).2 =
      if driver_parse_result C X args w = C.E_MACHO_FILE_PARSE_NOT_A_MACHO then
        if !args.dont_handle_non_macho_error then
          (.returned .E_PARSE_MACHO_FOR_MAIN_NOT_A_MACHO, args,
            parse_macho_file_for_main_while_recursing.handled_world C X args w)
        else
          (.returned .E_PARSE_MACHO_FOR_MAIN_NOT_A_MACHO, args, driver_parsed_world C X args w)
      else if !parse_macho_file_for_main_while_recursing.should_continue C X args w then
        (.returned .E_PARSE_MACHO_FOR_MAIN_OTHER_ERROR, args,
          (parse_macho_file_for_main_while_recursing.handled_world C X args w).store_info
            (clear_create_info X
              (parse_macho_file_for_main_while_recursing.handled_world C X args w).tbd.info
              (read_magic X args.fd w).2.tbd.info))
      else
        parse_macho_file_for_main_while_recursing.after_handle C X args
          (read_magic X args.fd w).2.tbd.info
          (parse_macho_file_for_main_while_recursing.handled_world C X args w) := rfl

/-- The five ways `parse_macho_file_for_main` can run, with the result and
the info of the tbd in each. -/
theorem parse_macho_file_for_main_cases (C : Consts) (X : Collab E R)
    (args : parse_macho_for_main_args) (w : World E R) :
    ((read_magic X args.fd w).1 ≠ 0 ∧ (read_magic X args.fd w).2.errno = C.EOVERFLOW ∧
      (parse_macho_file_for_main C X args w).1 =
        .returned .E_PARSE_MACHO_FOR_MAIN_NOT_A_MACHO) ∨
    ((read_magic X args.fd w).1 ≠ 0 ∧ (read_magic X args.fd w).2.errno ≠ C.EOVERFLOW ∧
      (parse_macho_file_for_main C X args w).1 =
        .returned .E_PARSE_MACHO_FOR_MAIN_OTHER_ERROR) ∨
    ((read_magic X args.fd w).1 = 0 ∧
      driver_parse_result C X args w = C.E_MACHO_FILE_PARSE_NOT_A_MACHO ∧
      (parse_macho_file_for_main C X args w).1 =
        .returned .E_PARSE_MACHO_FOR_MAIN_NOT_A_MACHO) ∨
    ((read_magic X args.fd w).1 = 0 ∧
      driver_parse_result C X args w ≠ C.E_MACHO_FILE_PARSE_NOT_A_MACHO ∧
      parse_macho_file_for_main.should_continue C X args w = false ∧
      (parse_macho_file_for_main C X args w).1 =
        .returned .E_PARSE_MACHO_FOR_MAIN_OTHER_ERROR ∧
      ∃ i, (parse_macho_file_for_main C X args w).2.tbd.info =
        clear_create_info X i w.tbd.info) ∨
    ((read_magic X args.fd w).1 = 0 ∧
      driver_parse_result C X args w ≠ C.E_MACHO_FILE_PARSE_NOT_A_MACHO ∧
      parse_macho_file_for_main.should_continue C X args w = true ∧
      ((parse_macho_file_for_main C X args w).1 = .returned .E_PARSE_MACHO_FOR_MAIN_OK ∨
        (args.options &&& C.O_PARSE_MACHO_FOR_MAIN_VERIFY_WRITE_PATH ≠ 0 ∧
          (parse_macho_file_for_main C X args w).1 = .exited 1)) ∧
      ∀ r, (parse_macho_file_for_main C X args w).1 = .returned r →
        ∃ i, (parse_macho_file_for_main C X args w).2.tbd.info =
          clear_create_info X i w.tbd.info) := by
  rw [parse_macho_file_for_main_eq]
  by_cases hr : (read_magic X args.fd w).1 = 0
  · rw [if_neg (not_not.mpr hr), after_read_eq, read_magic_tbd]
    right; right
    by_cases hp : driver_parse_result C X args w = C.E_MACHO_FILE_PARSE_NOT_A_MACHO
    · left
      rw [if_pos hp]
      refine ⟨hr, hp, ?_⟩
      split <;> rfl
    · right
      rw [if_neg hp]
      cases hs : parse_macho_file_for_main.should_continue C X args w with
      | false =>
        left
        rw [if_pos Bool.not_false]
        exact ⟨hr, hp, rfl, rfl, ⟨_, World.store_info_info _ _⟩⟩
      | true =>
        right
        rw [if_neg (by decide)]
        exact ⟨hr, hp, rfl, after_handle_result C X args _ _,
          fun r h => after_handle_info C X args _ _ r h⟩
  · rw [if_pos hr]
    split
    · rename_i he
      exact Or.inl ⟨hr, he, rfl⟩
    · rename_i he
      exact Or.inr (Or.inl ⟨hr, he, rfl⟩)

/-- The five ways `parse_macho_file_for_main_while_recursing` can run, with
the result and the info of the tbd in each. -/
theorem parse_macho_file_for_main_while_recursing_cases (C : Consts) (X : Collab E R)
    (args : parse_macho_for_main_args) (w : World E R) :
    ((read_magic X args.fd w).1 ≠ 0 ∧ (read_magic X args.fd w).2.errno = C.EOVERFLOW ∧
      (parse_macho_file_for_main_while_recursing C X args w).1 =
        .returned .E_PARSE_MACHO_FOR_MAIN_NOT_A_MACHO) ∨
    ((read_magic X args.fd w).1 ≠ 0 ∧ (read_magic X args.fd w).2.errno ≠ C.EOVERFLOW ∧
      (parse_macho_file_for_main_while_recursing C X args w).1 =
        .returned .E_PARSE_MACHO_FOR_MAIN_OTHER_ERROR) ∨
    ((read_magic X args.fd w).1 = 0 ∧
      driver_parse_result C X args w = C.E_MACHO_FILE_PARSE_NOT_A_MACHO ∧
      (parse_macho_file_for_main_while_recursing C X args w).1 =
        .returned .E_PARSE_MACHO_FOR_MAIN_NOT_A_MACHO) ∨
    ((read_magic X args.fd w).1 = 0 ∧
      driver_parse_result C X args w ≠ C.E_MACHO_FILE_PARSE_NOT_A_MACHO ∧
      parse_macho_file_for_main_while_recursing.should_continue C X args w = false ∧
      (parse_macho_file_for_main_while_recursing C X args w).1 =
        .returned .E_PARSE_MACHO_FOR_MAIN_OTHER_ERROR ∧
      ∃ i, (parse_macho_file_for_main_while_recursing C X args w).2.2.tbd.info =
        clear_create_info X i w.tbd.info) ∨
    ((read_magic X args.fd w).1 = 0 ∧
      driver_parse_result C X args w ≠ C.E_MACHO_FILE_PARSE_NOT_A_MACHO ∧
      parse_macho_file_for_main_while_recursing.should_continue C X args w = true ∧
      ((∀ w0 p0 l0 f0 m0 d0, (X.open_r w0 p0 l0 f0 m0 d0).fd < 0) →
        (∀ w0 d dl n nl, X.tbd_for_main_create_write_path_for_recursing w0 d dl n nl ≠ none) →
        args.combine_file = none →
        (parse_macho_file_for_main_while_recursing C X args w).1 =
          .returned .E_PARSE_MACHO_FOR_MAIN_OTHER_ERROR) ∧
      ∀ r, (parse_macho_file_for_main_while_recursing C X args w).1 = .returned r →
        ∃ i, (parse_macho_file_for_main_while_recursing C X args w).2.2.tbd.info =
          clear_create_info X i w.tbd.info) := by
  rw [parse_macho_file_for_main_while_recursing_eq]
  by_cases hr : (read_magic X args.fd w).1 = 0
  · rw [if_neg (not_not.mpr hr), rec_after_read_eq, read_magic_tbd]
    right; right
    by_cases hp : driver_parse_result C X args w = C.E_MACHO_FILE_PARSE_NOT_A_MACHO
    · left
      rw [if_pos hp]
      refine ⟨hr, hp, ?_⟩
      split <;> rfl
    · right
      rw [if_neg hp]
      cases hs : parse_macho_file_for_main_while_recursing.should_continue C X args w with
      | false =>
        left
        rw [if_pos Bool.not_false]
        exact ⟨hr, hp, rfl, rfl, ⟨_, World.store_info_info _ _⟩⟩
      | true =>
        right
        rw [if_neg (by decide)]
        exact ⟨hr, hp, rfl,
          fun hfail halloc hc => rec_after_handle_result C X hfail halloc args hc _ _,
          fun r h => rec_after_handle_info C X args _ _ r h⟩
  · rw [if_pos hr]
    split
    · rename_i he
      exact Or.inl ⟨hr, he, rfl⟩
    · rename_i he
      exact Or.inr (Or.inl ⟨hr, he, rfl⟩)

/-! ### The tails of the drivers in terms of what a run observes -/

theorem after_handle_eq (C : Consts) (X : Collab E R)
    (args : parse_macho_for_main_args) (o : tbd_create_info E R) (w : World E R) :
    parse_macho_file_for_main.after_handle C X args o
        (parse_macho_file_for_main.handled_world C X args w) =
      match (parse_macho_file_for_main.verified C X args w).1 with
      | .exited status => (.exited status, (parse_macho_file_for_main.verified C X args w).2)
      | .returned _ =>
        if (parse_macho_file_for_main.verified C X args w).2.tbd.write_path ≠ none then
          match (parse_macho_file_for_main.opened C X args w).1 with
          | none =>
            (.returned .E_PARSE_MACHO_FOR_MAIN_OK,
              (parse_macho_file_for_main.opened C X args w).2.2.store_info
                (clear_create_info X
                  (parse_macho_file_for_main.opened C X args w).2.2.tbd.info o))
          | some file =>
            (.returned .E_PARSE_MACHO_FOR_MAIN_OK,
              ((((parse_macho_file_for_main.opened C X args w).2.2.emit
                  (.tbd_for_main_write_to_file
                    (parse_macho_file_for_main.verified C X args w).2.tbd.write_path
                    (parse_macho_file_for_main.verified C X args w).2.tbd.write_path_length
                    (parse_macho_file_for_main.opened C X args w).2.1 file
                    args.print_paths)).set_tbd
                  (X.tbd_for_main_write_to_file
                    (parse_macho_file_for_main.opened C X args w).2.2
                    (parse_macho_file_for_main.verified C X args w).2.tbd.write_path
                    (parse_macho_file_for_main.verified C X args w).2.tbd.write_path_length
                    (parse_macho_file_for_main.opened C X args w).2.1 file
                    args.print_paths)).emit (.fclose file)).store_info
                (clear_create_info X
                  (X.tbd_for_main_write_to_file
                    (parse_macho_file_for_main.opened C X args w).2.2
                    (parse_macho_file_for_main.verified C X args w).2.tbd.write_path
                    (parse_macho_file_for_main.verified C X args w).2.tbd.write_path_length
                    (parse_macho_file_for_main.opened C X args w).2.1 file
                    args.print_paths).info o))
        else
          (.returned .E_PARSE_MACHO_FOR_MAIN_OK,
            (((parse_macho_file_for_main.verified C X args w).2.emit
                (.tbd_for_main_write_to_stdout args.dir_path)).set_tbd
              (X.tbd_for_main_write_to_stdout (parse_macho_file_for_main.verified C X args w).2
                args.dir_path)).store_info
              (clear_create_info X
                (X.tbd_for_main_write_to_stdout
                  (parse_macho_file_for_main.verified C X args w).2 args.dir_path).info o)) :=
  rfl

theorem rec_after_handle_eq (C : Consts) (X : Collab E R)
    (args : parse_macho_for_main_args) (o : tbd_create_info E R) (w : World E R) :
    parse_macho_file_for_main_while_recursing.after_handle C X args o
        (parse_macho_file_for_main_while_recursing.handled_world C X args w) =
      match (parse_macho_file_for_main_while_recursing.prepared C X args w).1 with
      | .exited status =>
        (.exited status, args, (parse_macho_file_for_main_while_recursing.prepared C X args w).2)
      | .returned pl =>
        match (parse_macho_file_for_main_while_recursing.opened C X args w pl).1 with
        | none =>
          (.returned .E_PARSE_MACHO_FOR_MAIN_OTHER_ERROR,
            (parse_macho_file_for_main_while_recursing.opened C X args w pl).2.2.1,
            (if !decide ((parse_macho_file_for_main_while_recursing.handled_world C X args
                w).tbd.flags &&& C.F_TBD_FOR_MAIN_COMBINE_TBDS ≠ 0) then
              (parse_macho_file_for_main_while_recursing.opened C X args w pl).2.2.2.emit
                (.free pl.1)
            else
              (parse_macho_file_for_main_while_recursing.opened C X args w pl).2.2.2).store_info
              (clear_create_info X
                (if !decide ((parse_macho_file_for_main_while_recursing.handled_world C X args
                    w).tbd.flags &&& C.F_TBD_FOR_MAIN_COMBINE_TBDS ≠ 0) then
                  (parse_macho_file_for_main_while_recursing.opened C X args w pl).2.2.2.emit
                    (.free pl.1)
                else
                  (parse_macho_file_for_main_while_recursing.opened C X args w
                    pl).2.2.2).tbd.info o))
        | some file =>
          (.returned .E_PARSE_MACHO_FOR_MAIN_OK,
            (parse_macho_file_for_main_while_recursing.opened C X args w pl).2.2.1,
            (if !decide ((parse_macho_file_for_main_while_recursing.handled_world C X args
                w).tbd.flags &&& C.F_TBD_FOR_MAIN_COMBINE_TBDS ≠ 0) then
              ((((parse_macho_file_for_main_while_recursing.opened C X args w pl).2.2.2.emit
                  (.tbd_for_main_write_to_file pl.1 pl.2
                    (parse_macho_file_for_main_while_recursing.opened C X args w pl).2.1 file
                    args.print_paths)).set_tbd
                (X.tbd_for_main_write_to_file
                  (parse_macho_file_for_main_while_recursing.opened C X args w pl).2.2.2
                  pl.1 pl.2
                  (parse_macho_file_for_main_while_recursing.opened C X args w pl).2.1 file
                  args.print_paths)).emit (.fclose file)).emit (.free pl.1)
            else
              ((parse_macho_file_for_main_while_recursing.opened C X args w pl).2.2.2.emit
                  (.tbd_for_main_write_to_file pl.1 pl.2
                    (parse_macho_file_for_main_while_recursing.opened C X args w pl).2.1 file
                    args.print_paths)).set_tbd
                (X.tbd_for_main_write_to_file
                  (parse_macho_file_for_main_while_recursing.opened C X args w pl).2.2.2
                  pl.1 pl.2
                  (parse_macho_file_for_main_while_recursing.opened C X args w pl).2.1 file
                  args.print_paths)).store_info
              (clear_create_info X
                (if !decide ((parse_macho_file_for_main_while_recursing.handled_world C X args
                    w).tbd.flags &&& C.F_TBD_FOR_MAIN_COMBINE_TBDS ≠ 0) then
                  ((((parse_macho_file_for_main_while_recursing.opened C X args w
                      pl).2.2.2.emit
                      (.tbd_for_main_write_to_file pl.1 pl.2
                        (parse_macho_file_for_main_while_recursing.opened C X args w pl).2.1
                        file args.print_paths)).set_tbd
                    (X.tbd_for_main_write_to_file
                      (parse_macho_file_for_main_while_recursing.opened C X args w pl).2.2.2
                      pl.1 pl.2
                      (parse_macho_file_for_main_while_recursing.opened C X args w pl).2.1 file
                      args.print_paths)).emit (.fclose file)).emit (.free pl.1)
                else
                  ((parse_macho_file_for_main_while_recursing.opened C X args w pl).2.2.2.emit
                      (.tbd_for_main_write_to_file pl.1 pl.2
                        (parse_macho_file_for_main_while_recursing.opened C X args w pl).2.1
                        file args.print_paths)).set_tbd
                    (X.tbd_for_main_write_to_file
                      (parse_macho_file_for_main_while_recursing.opened C X args w pl).2.2.2
                      pl.1 pl.2
                      (parse_macho_file_for_main_while_recursing.opened C X args w pl).2.1 file
                      args.print_paths)).tbd.info o)) :=
  rfl

/-- The classifier of tbd writes ignores the calls of the helpers. -/
theorem written_local_io (e : Event) (h : e.local_io = true) : e.written = none := by
  cases e <;> first | rfl | exact Bool.noConfusion h

/-- When `verify_write_path` ends the process: a write path is set and `stat`
fails with an `errno` other than `ENOENT`, or finds something that is not a
regular file. -/
theorem verify_write_path_exit_iff (C : Consts) (X : Collab E R) (w : World E R) :
    (verify_write_path C X w).1 = .exited 1 ↔
      ∃ p, w.tbd.write_path = some p ∧
        ((∃ e, X.stat w p = .error e ∧ e ≠ C.ENOENT) ∨ X.stat w p = .ok false) := by
  unfold verify_write_path
  cases hp : w.tbd.write_path with
  | none =>
    dsimp only
    constructor
    · exact fun h => Completion.noConfusion h
    · rintro ⟨p, h, _⟩
      exact Option.noConfusion h
  | some p =>
    dsimp only
    cases hs : X.stat w p with
    | error e =>
      dsimp only
      by_cases he : e = C.ENOENT
      · rw [World.set_errno_errno, if_neg (not_not.mpr he)]
        constructor
        · exact fun h => Completion.noConfusion h
        · rintro ⟨q, hq, h⟩
          cases hq
          rcases h with ⟨e2, h1, h2⟩ | h
          · rw [hs] at h1
            cases h1
            exact absurd he h2
          · rw [hs] at h
            cases h
      · rw [World.set_errno_errno, if_pos he]
        exact ⟨fun _ => ⟨p, rfl, Or.inl ⟨e, hs, he⟩⟩, fun _ => rfl⟩
    | ok is_reg =>
      dsimp only
      cases is_reg with
      | false =>
        exact ⟨fun _ => ⟨p, rfl, Or.inr hs⟩, fun _ => rfl⟩
      | true =>
        constructor
        · exact fun h => Completion.noConfusion h
        · rintro ⟨q, hq, h⟩
          cases hq
          rcases h with ⟨e2, h1, _⟩ | h
          · rw [hs] at h1
            cases h1
          · rw [hs] at h
            cases h

theorem verified_tbd (C : Consts) (X : Collab E R) (args : parse_macho_for_main_args)
    (w : World E R) :
    (parse_macho_file_for_main.verified C X args w).2.tbd =
      (parse_macho_file_for_main.handled_world C X args w).tbd := by
  unfold parse_macho_file_for_main.verified
  dsimp only
  split
  · exact verify_write_path_tbd C X _
  · rfl

/-- The call of `verify_write_path` in `parse_macho_file_for_main` ends the
process exactly when it was requested and the write path is rejected. -/
theorem verified_exit_iff (C : Consts) (X : Collab E R) (args : parse_macho_for_main_args)
    (w : World E R) :
    (parse_macho_file_for_main.verified C X args w).1 = .exited 1 ↔
      args.options &&& C.O_PARSE_MACHO_FOR_MAIN_VERIFY_WRITE_PATH ≠ 0 ∧
      (verify_write_path C X (parse_macho_file_for_main.handled_world C X args w)).1 =
        .exited 1 := by
  unfold parse_macho_file_for_main.verified
  dsimp only
  by_cases hv : args.options &&& C.O_PARSE_MACHO_FOR_MAIN_VERIFY_WRITE_PATH ≠ 0
  · rw [if_pos hv]
    exact ⟨fun h => ⟨hv, h⟩, fun h => h.2⟩
  · rw [if_neg hv]
    exact ⟨fun h => Completion.noConfusion h, fun h => absurd h.1 hv⟩

theorem verified_result (C : Consts) (X : Collab E R) (args : parse_macho_for_main_args)
    (w : World E R) :
    (parse_macho_file_for_main.verified C X args w).1 = .returned () ∨
    (parse_macho_file_for_main.verified C X args w).1 = .exited 1 := by
  unfold parse_macho_file_for_main.verified
  dsimp only
  split
  · exact verify_write_path_result C X _
  · exact Or.inl rfl

/-- The driver after a true `should_continue`: it is the tail of the driver run
from the state the handler left, with the snapshot of the entry state. -/
theorem parse_macho_file_for_main_of_continue (C : Consts) (X : Collab E R)
    (args : parse_macho_for_main_args) (w : World E R)
    (hread : (read_magic X args.fd w).1 = 0)
    (hparse : driver_parse_result C X args w ≠ C.E_MACHO_FILE_PARSE_NOT_A_MACHO)
    (hs : parse_macho_file_for_main.should_continue C X args w = true) :
    parse_macho_file_for_main C X args w =
      parse_macho_file_for_main.after_handle C X args w.tbd.info
        (parse_macho_file_for_main.handled_world C X args w) := by
  rw [parse_macho_file_for_main_eq, if_neg (not_not.mpr hread), after_read_eq, if_neg hparse,
    hs, if_neg (by decide), read_magic_tbd]

/-- The driver after a false `should_continue`. -/
theorem parse_macho_file_for_main_of_refuse (C : Consts) (X : Collab E R)
    (args : parse_macho_for_main_args) (w : World E R)
    (hread : (read_magic X args.fd w).1 = 0)
    (hparse : driver_parse_result C X args w ≠ C.E_MACHO_FILE_PARSE_NOT_A_MACHO)
    (hs : parse_macho_file_for_main.should_continue C X args w = false) :
    parse_macho_file_for_main C X args w =
      (.returned .E_PARSE_MACHO_FOR_MAIN_OTHER_ERROR,
        (parse_macho_file_for_main.handled_world C X args w).store_info
          (clear_create_info X (parse_macho_file_for_main.handled_world C X args w).tbd.info
            w.tbd.info)) := by
  rw [parse_macho_file_for_main_eq, if_neg (not_not.mpr hread), after_read_eq, if_neg hparse,
    hs, if_pos Bool.not_false, read_magic_tbd]

theorem parse_macho_file_for_main_while_recursing_of_continue (C : Consts) (X : Collab E R)
    (args : parse_macho_for_main_args) (w : World E R)
    (hread : (read_magic X args.fd w).1 = 0)
    (hparse : driver_parse_result C X args w ≠ C.E_MACHO_FILE_PARSE_NOT_A_MACHO)
    (hs : parse_macho_file_for_main_while_recursing.should_continue C X args w = true) :
    parse_macho_file_for_main_while_recursing C X args w =
      parse_macho_file_for_main_while_recursing.after_handle C X args w.tbd.info
        (parse_macho_file_for_main_while_recursing.handled_world C X args w) := by
  rw [parse_macho_file_for_main_while_recursing_eq, if_neg (not_not.mpr hread),
    rec_after_read_eq, if_neg hparse, hs, if_neg (by decide), read_magic_tbd]

theorem parse_macho_file_for_main_while_recursing_of_refuse (C : Consts) (X : Collab E R)
    (args : parse_macho_for_main_args) (w : World E R)
    (hread : (read_magic X args.fd w).1 = 0)
    (hparse : driver_parse_result C X args w ≠ C.E_MACHO_FILE_PARSE_NOT_A_MACHO)
    (hs : parse_macho_file_for_main_while_recursing.should_continue C X args w = false) :
    parse_macho_file_for_main_while_recursing C X args w =
      (.returned .E_PARSE_MACHO_FOR_MAIN_OTHER_ERROR, args,
        (parse_macho_file_for_main_while_recursing.handled_world C X args w).store_info
          (clear_create_info X
            (parse_macho_file_for_main_while_recursing.handled_world C X args w).tbd.info
            w.tbd.info)) := by
  rw [parse_macho_file_for_main_while_recursing_eq, if_neg (not_not.mpr hread),
    rec_after_read_eq, if_neg hparse, hs, if_pos Bool.not_false, read_magic_tbd]

/-- The tail of `parse_macho_file_for_main`: either the verification of the
write path ends the process, or the driver returns
`E_PARSE_MACHO_FOR_MAIN_OK` with the info cleared from its value at the call of
`clear_create_info`. -/
theorem after_handle_run (C : Consts) (X : Collab E R) (args : parse_macho_for_main_args)
    (o : tbd_create_info E R) (w : World E R)
    (hs : parse_macho_file_for_main.should_continue C X args w = true) :
    ((parse_macho_file_for_main.verified C X args w).1 = .exited 1 ∧
      (parse_macho_file_for_main.after_handle C X args o
        (parse_macho_file_for_main.handled_world C X args w)).1 = .exited 1) ∨
    ((parse_macho_file_for_main.verified C X args w).1 = .returned () ∧
      (parse_macho_file_for_main.after_handle C X args o
        (parse_macho_file_for_main.handled_world C X args w)).1 =
          .returned .E_PARSE_MACHO_FOR_MAIN_OK ∧
      (parse_macho_file_for_main.after_handle C X args o
        (parse_macho_file_for_main.handled_world C X args w)).2.tbd.info =
          clear_create_info X (parse_macho_file_for_main.info_before_clear C X args w) o) := by
  rw [after_handle_eq]
  unfold parse_macho_file_for_main.info_before_clear
  rw [hs]
  dsimp only
  rcases verified_result C X args w with h | h
  · right
    rw [h]
    dsimp only
    refine ⟨rfl, ?_⟩
    cases hwp : (parse_macho_file_for_main.verified C X args w).2.tbd.write_path with
    | none => exact ⟨rfl, rfl⟩
    | some p =>
      cases ho : (parse_macho_file_for_main.opened C X args w).1 with
      | none => exact ⟨rfl, rfl⟩
      | some file => exact ⟨rfl, rfl⟩
  · left
    rw [h]
    exact ⟨rfl, rfl⟩

/-- When the path for the recursing driver cannot be prepared: the tbds are not
combined and the path cannot be allocated. -/
theorem prepared_exit_iff (C : Consts) (X : Collab E R) (args : parse_macho_for_main_args)
    (w : World E R) :
    (parse_macho_file_for_main_while_recursing.prepared C X args w).1 = .exited 1 ↔
      (parse_macho_file_for_main_while_recursing.handled_world C X args w).tbd.flags &&&
          C.F_TBD_FOR_MAIN_COMBINE_TBDS = 0 ∧
      X.tbd_for_main_create_write_path_for_recursing
        (parse_macho_file_for_main_while_recursing.handled_world C X args w) args.dir_path
        args.dir_path_length args.name args.name_length = none := by
  unfold parse_macho_file_for_main_while_recursing.prepared
  dsimp only
  by_cases hc : (parse_macho_file_for_main_while_recursing.handled_world C X args w).tbd.flags
      &&& C.F_TBD_FOR_MAIN_COMBINE_TBDS = 0
  · have hd : (!decide ((parse_macho_file_for_main_while_recursing.handled_world C X args
        w).tbd.flags &&& C.F_TBD_FOR_MAIN_COMBINE_TBDS ≠ 0)) = true := by
      rw [decide_eq_false (not_not.mpr hc)]
      rfl
    rw [if_pos hd]
    cases hcr : X.tbd_for_main_create_write_path_for_recursing
        (parse_macho_file_for_main_while_recursing.handled_world C X args w) args.dir_path
        args.dir_path_length args.name args.name_length with
    | none => exact ⟨fun _ => ⟨hc, rfl⟩, fun _ => rfl⟩
    | some created =>
      exact ⟨fun h => Completion.noConfusion h, fun h => Option.noConfusion h.2⟩
  · have hd : ¬ (!decide ((parse_macho_file_for_main_while_recursing.handled_world C X args
        w).tbd.flags &&& C.F_TBD_FOR_MAIN_COMBINE_TBDS ≠ 0)) = true := by
      rw [decide_eq_true hc]
      decide
    rw [if_neg hd]
    exact ⟨fun h => Completion.noConfusion h, fun h => absurd h.1 hc⟩

theorem prepared_result (C : Consts) (X : Collab E R) (args : parse_macho_for_main_args)
    (w : World E R) :
    (parse_macho_file_for_main_while_recursing.prepared C X args w).1 = .exited 1 ∨
    ∃ pl, (parse_macho_file_for_main_while_recursing.prepared C X args w).1 = .returned pl := by
  unfold parse_macho_file_for_main_while_recursing.prepared
  dsimp only
  split
  · split
    · exact Or.inl rfl
    · exact Or.inr ⟨_, rfl⟩
  · exact Or.inr ⟨_, rfl⟩

/-- The tail of `parse_macho_file_for_main_while_recursing`: either the path
cannot be prepared and the process ends, or the driver returns
`E_PARSE_MACHO_FOR_MAIN_OTHER_ERROR` when the helper gives `NULL` and
`E_PARSE_MACHO_FOR_MAIN_OK` when it gives a stream, with the info cleared from
its value at the call of `clear_create_info`. -/
theorem rec_after_handle_run (C : Consts) (X : Collab E R) (args : parse_macho_for_main_args)
    (o : tbd_create_info E R) (w : World E R)
    (hs : parse_macho_file_for_main_while_recursing.should_continue C X args w = true) :
    ((parse_macho_file_for_main_while_recursing.prepared C X args w).1 = .exited 1 ∧
      (parse_macho_file_for_main_while_recursing.after_handle C X args o
        (parse_macho_file_for_main_while_recursing.handled_world C X args w)).1 = .exited 1) ∨
    (∃ pl, (parse_macho_file_for_main_while_recursing.prepared C X args w).1 = .returned pl ∧
      (((parse_macho_file_for_main_while_recursing.opened C X args w pl).1 = none ∧
          (parse_macho_file_for_main_while_recursing.after_handle C X args o
            (parse_macho_file_for_main_while_recursing.handled_world C X args w)).1 =
              .returned .E_PARSE_MACHO_FOR_MAIN_OTHER_ERROR) ∨
        ((parse_macho_file_for_main_while_recursing.opened C X args w pl).1 ≠ none ∧
          (parse_macho_file_for_main_while_recursing.after_handle C X args o
            (parse_macho_file_for_main_while_recursing.handled_world C X args w)).1 =
              .returned .E_PARSE_MACHO_FOR_MAIN_OK)) ∧
      (parse_macho_file_for_main_while_recursing.after_handle C X args o
        (parse_macho_file_for_main_while_recursing.handled_world C X args w)).2.2.tbd.info =
          clear_create_info X
            (parse_macho_file_for_main_while_recursing.info_before_clear C X args w) o) := by
  rw [rec_after_handle_eq]
  unfold parse_macho_file_for_main_while_recursing.info_before_clear
  rw [hs]
  dsimp only
  rcases prepared_result C X args w with h | ⟨pl, h⟩
  · left
    rw [h]
    exact ⟨rfl, rfl⟩
  · right
    refine ⟨pl, h, ?_⟩
    rw [h]
    dsimp only
    cases ho : (parse_macho_file_for_main_while_recursing.opened C X args w pl).1 with
    | none =>
      refine ⟨Or.inl ⟨rfl, rfl⟩, ?_⟩
      cases hd : decide ((parse_macho_file_for_main_while_recursing.handled_world C X args
          w).tbd.flags &&& C.F_TBD_FOR_MAIN_COMBINE_TBDS ≠ 0) <;> rfl
    | some file =>
      refine ⟨Or.inr ⟨fun h2 => Option.noConfusion h2, rfl⟩, ?_⟩
      cases hd : decide ((parse_macho_file_for_main_while_recursing.handled_world C X args
          w).tbd.flags &&& C.F_TBD_FOR_MAIN_COMBINE_TBDS ≠ 0) <;> rfl

theorem handled_world_written (C : Consts) (X : Collab E R) (args : parse_macho_for_main_args)
    (w : World E R) :
    (parse_macho_file_for_main.handled_world C X args w).trace.filterMap Event.written =
      w.trace.filterMap Event.written := by
  unfold parse_macho_file_for_main.handled_world driver_parsed_world
  dsimp only
  simp only [World.emit_trace, World.set_tbd_trace, World.store_info_trace,
    List.filterMap_append, List.filterMap_cons, List.filterMap_nil, Event.written,
    read_magic_filterMap _ written_local_io, List.append_nil]

theorem verified_written (C : Consts) (X : Collab E R) (args : parse_macho_for_main_args)
    (w : World E R) :
    (parse_macho_file_for_main.verified C X args w).2.trace.filterMap Event.written =
      w.trace.filterMap Event.written := by
  unfold parse_macho_file_for_main.verified
  dsimp only
  split
  · rw [verify_write_path_filterMap _ written_local_io, handled_world_written]
  · exact handled_world_written C X args w

theorem opened_written (C : Consts) (X : Collab E R) (args : parse_macho_for_main_args)
    (w : World E R) :
    (parse_macho_file_for_main.opened C X args w).2.2.trace.filterMap Event.written =
      w.trace.filterMap Event.written := by
  unfold parse_macho_file_for_main.opened
  dsimp only
  rw [open_file_for_path_filterMap _ written_local_io, verified_written]

/-- When `open_file_for_path` gives `NULL` to `parse_macho_file_for_main`, no
call that writes the tbd is made. -/
theorem parse_macho_file_for_main_written_of_open_none (C : Consts) (X : Collab E R)
    (args : parse_macho_for_main_args) (w : World E R)
    (hread : (read_magic X args.fd w).1 = 0)
    (hparse : driver_parse_result C X args w ≠ C.E_MACHO_FILE_PARSE_NOT_A_MACHO)
    (hs : parse_macho_file_for_main.should_continue C X args w = true)
    (hv : (parse_macho_file_for_main.verified C X args w).1 = .returned ())
    (hwp : (parse_macho_file_for_main.verified C X args w).2.tbd.write_path ≠ none)
    (ho : (parse_macho_file_for_main.opened C X args w).1 = none) :
    ((parse_macho_file_for_main C X args w).2.events_since w).filterMap Event.written = [] := by
  apply World.events_since_filterMap _ _ (parse_macho_file_for_main_extends C X args w)
  rw [parse_macho_file_for_main_of_continue C X args w hread hparse hs, after_handle_eq, hv]
  dsimp only
  cases hp : (parse_macho_file_for_main.verified C X args w).2.tbd.write_path with
  | none => exact absurd hp hwp
  | some p =>
    rw [ho, if_pos (fun h => Option.noConfusion h)]
    dsimp only
    rw [World.store_info_trace, opened_written, List.append_nil]

/-- The helper `open_file_for_path` gives `NULL` exactly when `open_r` gives a
negative descriptor or `fdopen` gives `NULL`. -/
theorem open_file_for_path_none_iff (C : Consts) (X : Collab E R)
    (args : parse_macho_for_main_args) (p : Option Path) (l : Nat) (t : Option Nat)
    (w : World E R) :
    (open_file_for_path C X args p l t w).1 = none ↔
      (X.open_r w p l (open_flags_spec C w.tbd.flags) C.DEFFILEMODE 493).fd < 0 ∨
      (X.fdopen
        ((w.emit (.open_r p l (open_flags_spec C w.tbd.flags) C.DEFFILEMODE 493)).set_errno
          (X.open_r w p l (open_flags_spec C w.tbd.flags) C.DEFFILEMODE 493).errno)
        (X.open_r w p l (open_flags_spec C w.tbd.flags) C.DEFFILEMODE 493).fd).1 = none := by
  by_cases h : (X.open_r w p l (open_flags_spec C w.tbd.flags) C.DEFFILEMODE 493).fd < 0
  · exact ⟨fun _ => Or.inl h, fun _ => (open_file_for_path_failure C X args p l t w h).1⟩
  · have h2 := h
    rw [← open_flags_spec_eq] at h2 ⊢
    unfold open_file_for_path
    dsimp only
    rw [if_neg h2]
    exact ⟨fun h3 => Or.inr h3, fun h3 => h3.resolve_left h2⟩

/-- The helper `open_file_for_path_while_recursing` gives `NULL` exactly when
there is no combine file and `open_r` gives a negative descriptor or `fdopen`
gives `NULL`. -/
theorem open_file_for_path_while_recursing_none_iff (C : Consts) (X : Collab E R)
    (args : parse_macho_for_main_args) (p : Option Path) (l : Nat) (t : Option Nat)
    (w : World E R) :
    (open_file_for_path_while_recursing C X args p l t w).1 = none ↔
      args.combine_file = none ∧
      ((X.open_r w p l (open_flags_spec C w.tbd.flags) C.DEFFILEMODE 493).fd < 0 ∨
        (X.fdopen
          ((w.emit (.open_r p l (open_flags_spec C w.tbd.flags) C.DEFFILEMODE 493)).set_errno
            (X.open_r w p l (open_flags_spec C w.tbd.flags) C.DEFFILEMODE 493).errno)
          (X.open_r w p l (open_flags_spec C w.tbd.flags) C.DEFFILEMODE 493).fd).1 = none) := by
  cases hc : args.combine_file with
  | some f =>
    unfold open_file_for_path_while_recursing
    rw [hc]
    exact ⟨fun h => Option.noConfusion h, fun h => Option.noConfusion h.1⟩
  | none =>
    by_cases h : (X.open_r w p l (open_flags_spec C w.tbd.flags) C.DEFFILEMODE 493).fd < 0
    · exact ⟨fun _ => ⟨rfl, Or.inl h⟩,
        fun _ => (open_file_for_path_while_recursing_failure C X args p l t w hc h).1⟩
    · have h2 := h
      rw [← open_flags_spec_eq] at h2 ⊢
      unfold open_file_for_path_while_recursing
      rw [hc]
      dsimp only
      rw [if_neg h2]
      exact ⟨fun h3 => ⟨rfl, Or.inr h3⟩, fun h3 => h3.2.resolve_left h2⟩

/-- The remaining case of `parse_macho_file_for_main`: the process ends exactly
when the verification of the write path was requested and rejects the path, and
the driver returns `E_PARSE_MACHO_FOR_MAIN_OK` otherwise. -/
theorem parse_macho_file_for_main_remaining (C : Consts) (X : Collab E R)
    (args : parse_macho_for_main_args) (w : World E R)
    (hread : (read_magic X args.fd w).1 = 0)
    (hparse : driver_parse_result C X args w ≠ C.E_MACHO_FILE_PARSE_NOT_A_MACHO)
    (hs : parse_macho_file_for_main.should_continue C X args w = true) :
    ((args.options &&& C.O_PARSE_MACHO_FOR_MAIN_VERIFY_WRITE_PATH ≠ 0 ∧
        ∃ p, (parse_macho_file_for_main.handled_world C X args w).tbd.write_path = some p ∧
          ((∃ e, X.stat (parse_macho_file_for_main.handled_world C X args w) p = .error e ∧
              e ≠ C.ENOENT) ∨
            X.stat (parse_macho_file_for_main.handled_world C X args w) p = .ok false)) ∧
      (parse_macho_file_for_main C X args w).1 = .exited 1) ∨
    (¬ (args.options &&& C.O_PARSE_MACHO_FOR_MAIN_VERIFY_WRITE_PATH ≠ 0 ∧
        ∃ p, (parse_macho_file_for_main.handled_world C X args w).tbd.write_path = some p ∧
          ((∃ e, X.stat (parse_macho_file_for_main.handled_world C X args w) p = .error e ∧
              e ≠ C.ENOENT) ∨
            X.stat (parse_macho_file_for_main.handled_world C X args w) p = .ok false)) ∧
      (parse_macho_file_for_main.verified C X args w).1 = .returned () ∧
      (parse_macho_file_for_main C X args w).1 = .returned .E_PARSE_MACHO_FOR_MAIN_OK) := by
  rw [parse_macho_file_for_main_of_continue C X args w hread hparse hs,
    ← verify_write_path_exit_iff, ← verified_exit_iff]
  rcases after_handle_run C X args w.tbd.info w hs with ⟨h1, h2⟩ | ⟨h1, h2, _⟩
  · exact Or.inl ⟨h1, h2⟩
  · refine Or.inr ⟨?_, h1, h2⟩
    rw [h1]
    exact fun h => Completion.noConfusion h

end DriverFacts

/-! ## Claims about the drivers -/

section DriverClaims
variable {E R : Type}

/-- C5: both drivers call the parser exactly when the magic was read, once,
and the option word they pass is `O_MACHO_FILE_PARSE_IGNORE_INVALID_FIELDS`
or-ed with `tbd->macho_options`: every bit of either is set in it. -/
theorem parse_passes_ignore_invalid_fields (C : Consts) (X : Collab E R)
    (args : parse_macho_for_main_args) (w : World E R) :
    (∀ i, C.O_MACHO_FILE_PARSE_IGNORE_INVALID_FIELDS.testBit i = true →
      (C.O_MACHO_FILE_PARSE_IGNORE_INVALID_FIELDS ||| w.tbd.macho_options).testBit i = true) ∧
    (∀ i, w.tbd.macho_options.testBit i = true →
      (C.O_MACHO_FILE_PARSE_IGNORE_INVALID_FIELDS ||| w.tbd.macho_options).testBit i = true) ∧
    ((parse_macho_file_for_main C X args w).2.events_since w).filterMap
        Event.parse_macho_options =
      (if (read_magic X args.fd w).1 = 0 then
        [C.O_MACHO_FILE_PARSE_IGNORE_INVALID_FIELDS ||| w.tbd.macho_options] else []) ∧
    ((parse_macho_file_for_main_while_recursing C X args w).2.2.events_since w).filterMap
        Event.parse_macho_options =
      (if (read_magic X args.fd w).1 = 0 then
        [C.O_MACHO_FILE_PARSE_IGNORE_INVALID_FIELDS ||| w.tbd.macho_options] else []) := by
  refine ⟨?_, ?_, parse_macho_file_for_main_parse_macho_options C X args w,
    parse_macho_file_for_main_while_recursing_parse_macho_options C X args w⟩
  · intro i hi
    rw [Nat.testBit_or, hi, Bool.true_or]
  · intro i hi
    rw [Nat.testBit_or, hi, Bool.or_true]

/-- Witness of C5: on the sample input the parser is called once, with option
word `1 ||| 6 = 7`. -/
theorem parse_passes_ignore_invalid_fields_witness :
    ((parse_macho_file_for_main sample_consts (sample_collab 5 true) (sample_args 0)
        (sample_world 0)).2.events_since (sample_world 0)).filterMap
        Event.parse_macho_options = [7] :=
  (parse_passes_ignore_invalid_fields sample_consts (sample_collab 5 true) (sample_args 0)
    (sample_world 0)).2.2.1

/-- C8: a non-NULL `combine_file` is returned at once, with no call and with
`*args` and the state as they were; when `F_TBD_FOR_MAIN_COMBINE_TBDS` is set
and the call opens a stream, that stream becomes `combine_file` and every later
call on the same `*args` returns it; when the flag is not set `combine_file`
is never modified. -/
theorem open_file_for_path_while_recursing_combines (C : Consts) (X : Collab E R)
    (args : parse_macho_for_main_args) (p : Option Path) (l : Nat) (t : Option Nat)
    (w : World E R) :
    (∀ f, args.combine_file = some f →
      open_file_for_path_while_recursing C X args p l t w = (some f, t, args, w)) ∧
    (∀ f, w.tbd.flags &&& C.F_TBD_FOR_MAIN_COMBINE_TBDS ≠ 0 →
      args.combine_file = none →
      (open_file_for_path_while_recursing C X args p l t w).1 = some f →
      (open_file_for_path_while_recursing C X args p l t w).2.2.1 =
        { args with combine_file := some f } ∧
      ∀ (p2 : Option Path) (l2 : Nat) (t2 : Option Nat) (w2 : World E R),
        open_file_for_path_while_recursing C X
          (open_file_for_path_while_recursing C X args p l t w).2.2.1 p2 l2 t2 w2 =
        (some f, t2, (open_file_for_path_while_recursing C X args p l t w).2.2.1, w2)) ∧
    (w.tbd.flags &&& C.F_TBD_FOR_MAIN_COMBINE_TBDS = 0 →
      (open_file_for_path_while_recursing C X args p l t w).2.2.1 = args) := by
  refine ⟨?_, ?_, ?_⟩
  · intro f hf
    unfold open_file_for_path_while_recursing
    rw [hf]
  · intro f hflag hnone hopen
    have key : (open_file_for_path_while_recursing C X args p l t w).2.2.1 =
        { args with combine_file := some f } := by
      unfold open_file_for_path_while_recursing at hopen ⊢
      rw [hnone] at hopen ⊢
      dsimp only at hopen ⊢
      generalize (if w.tbd.flags &&& C.F_TBD_FOR_MAIN_NO_OVERWRITE ≠ 0 then C.O_EXCL else 0)
        = fl at hopen ⊢
      split at hopen
      · exfalso
        revert hopen
        repeat' split
        all_goals exact fun h => Option.noConfusion h
      · rename_i hfd
        rw [if_neg hfd]
        have hf : (X.fdopen _ _).1 = some f := hopen
        dsimp only
        split_ifs <;> first | (rw [hf]) | (rename_i h; exact absurd hflag h)
    refine ⟨key, ?_⟩
    intro p2 l2 t2 w2
    rw [key]
    unfold open_file_for_path_while_recursing
    rfl
  · intro hflag
    unfold open_file_for_path_while_recursing
    split
    · rfl
    · dsimp only
      generalize (if w.tbd.flags &&& C.F_TBD_FOR_MAIN_NO_OVERWRITE ≠ 0 then C.O_EXCL else 0)
        = fl
      split_ifs <;> first | rfl | (rename_i h; exact absurd hflag h)

/-- Witness of C8: with the combine flag set and a successful open, stream 5
becomes the combine file and is returned by a later call. -/
theorem open_file_for_path_while_recursing_combines_witness :
    (open_file_for_path_while_recursing sample_consts (sample_collab 5 true) (sample_args 0)
        (some "out") 3 none (sample_world 8)).2.2.1 =
      { sample_args 0 with combine_file := some 5 } ∧
    ∀ (p2 : Option Path) (l2 : Nat) (t2 : Option Nat) (w2 : World Nat Nat),
      open_file_for_path_while_recursing sample_consts (sample_collab 5 true)
        (open_file_for_path_while_recursing sample_consts (sample_collab 5 true)
          (sample_args 0) (some "out") 3 none (sample_world 8)).2.2.1 p2 l2 t2 w2 =
      (some 5, t2, (open_file_for_path_while_recursing sample_consts (sample_collab 5 true)
          (sample_args 0) (some "out") 3 none (sample_world 8)).2.2.1, w2) :=
  (open_file_for_path_while_recursing_combines sample_consts (sample_collab 5 true)
    (sample_args 0) (some "out") 3 none (sample_world 8)).2.1 5 (by decide) rfl (by decide)

/-- C7: both helpers call `open_r` with `O_WRONLY | O_TRUNC`, plus `O_EXCL`
exactly when `F_TBD_FOR_MAIN_NO_OVERWRITE` is set in `tbd->flags` (the recursing
helper only when it has no combine file); when that call fails they return
`NULL` whatever `errno` is, without calling `fdopen` and without storing a
terminator; and a driver whose `open_r` fails writes no tbd to a file. -/
theorem open_file_flags_and_failure (C : Consts) (X : Collab E R)
    (args : parse_macho_for_main_args) (p : Option Path) (l : Nat) (t : Option Nat)
    (w : World E R) :
    (((open_file_for_path C X args p l t w).2.2.events_since w).filterMap Event.open_r_flags =
      [open_flags_spec C w.tbd.flags]) ∧
    (((open_file_for_path_while_recursing C X args p l t w).2.2.2.events_since w).filterMap
        Event.open_r_flags =
      if args.combine_file = none then [open_flags_spec C w.tbd.flags] else []) ∧
    ((X.open_r w p l (open_flags_spec C w.tbd.flags) C.DEFFILEMODE 493).fd < 0 →
      ((open_file_for_path C X args p l t w).1 = none ∧
        (open_file_for_path C X args p l t w).2.1 = t ∧
        ((open_file_for_path C X args p l t w).2.2.events_since w).filterMap Event.fdopen_fd
          = []) ∧
      (args.combine_file = none →
        (open_file_for_path_while_recursing C X args p l t w).1 = none ∧
        (open_file_for_path_while_recursing C X args p l t w).2.1 = t ∧
        (open_file_for_path_while_recursing C X args p l t w).2.2.1 = args ∧
        ((open_file_for_path_while_recursing C X args p l t w).2.2.2.events_since w).filterMap
          Event.fdopen_fd = [])) ∧
    ((∀ w0 p0 l0 f0 m0 d0, (X.open_r w0 p0 l0 f0 m0 d0).fd < 0) →
      ((parse_macho_file_for_main C X args w).2.events_since w).filterMap
          Event.written_file = [] ∧
      (args.combine_file = none →
        ((parse_macho_file_for_main_while_recursing C X args w).2.2.events_since w).filterMap
          Event.written_file = [])) :=
  ⟨open_file_for_path_open_r_flags C X args p l t w,
   open_file_for_path_while_recursing_open_r_flags C X args p l t w,
   fun h => ⟨open_file_for_path_failure C X args p l t w h,
     fun hc => open_file_for_path_while_recursing_failure C X args p l t w hc h⟩,
   fun hfail => ⟨parse_macho_file_for_main_written_file C X hfail args w,
     fun hc => parse_macho_file_for_main_while_recursing_written_file C X hfail args hc w⟩⟩

/-- Witness of C7: with `F_TBD_FOR_MAIN_NO_OVERWRITE` set and `open_r` failing
with `EEXIST`, the helper returns `NULL` and the driver writes nothing. -/
theorem open_file_flags_and_failure_witness :
    ((open_file_for_path sample_consts (sample_collab (-1) true) (sample_args 0)
        (some "out") 3 none (sample_world 4)).1 = none ∧
      (open_file_for_path sample_consts (sample_collab (-1) true) (sample_args 0)
        (some "out") 3 none (sample_world 4)).2.1 = none ∧
      ((open_file_for_path sample_consts (sample_collab (-1) true) (sample_args 0)
        (some "out") 3 none (sample_world 4)).2.2.events_since (sample_world 4)).filterMap
          Event.fdopen_fd = []) ∧
    ((parse_macho_file_for_main sample_consts (sample_collab (-1) true) (sample_args 0)
        (sample_world 4)).2.events_since (sample_world 4)).filterMap Event.written_file = [] :=
  ⟨((open_file_flags_and_failure sample_consts (sample_collab (-1) true) (sample_args 0)
      (some "out") 3 none (sample_world 4)).2.2.1 (by decide)).1,
   ((open_file_flags_and_failure sample_consts (sample_collab (-1) true) (sample_args 0)
      (some "out") 3 none (sample_world 4)).2.2.2 (fun _ _ _ _ _ _ => (by decide : (-1 : Int) < 0))).1⟩

/-- C9: when a driver has called the parser, the parse result is not
`E_MACHO_FILE_PARSE_NOT_A_MACHO` and the driver returns, `tbd->info` is the
result of `clear_create_info` on the info the tbd held at that call and the
snapshot taken before the parse: every member is the snapshot's except
`fields.exports`, which is the array that `tbd_create_info_clear` left of the
array the tbd held at that call. -/
theorem parse_restores_info (C : Consts) (X : Collab E R)
    (args : parse_macho_for_main_args) (w : World E R) (r : parse_macho_for_main_result)
    (hread : (read_magic X args.fd w).1 = 0)
    (hparse : driver_parse_result C X args w ≠ C.E_MACHO_FILE_PARSE_NOT_A_MACHO) :
    ((parse_macho_file_for_main C X args w).1 = .returned r →
      (parse_macho_file_for_main C X args w).2.tbd.info =
        clear_create_info X (parse_macho_file_for_main.info_before_clear C X args w)
          w.tbd.info ∧
      (parse_macho_file_for_main C X args w).2.tbd.info.others = w.tbd.info.others ∧
      (parse_macho_file_for_main C X args w).2.tbd.info.fields.others =
        w.tbd.info.fields.others ∧
      (parse_macho_file_for_main C X args w).2.tbd.info.fields.exports =
        (X.tbd_create_info_clear
          (parse_macho_file_for_main.info_before_clear C X args w)).fields.exports) ∧
    ((parse_macho_file_for_main_while_recursing C X args w).1 = .returned r →
      (parse_macho_file_for_main_while_recursing C X args w).2.2.tbd.info =
        clear_create_info X
          (parse_macho_file_for_main_while_recursing.info_before_clear C X args w)
          w.tbd.info ∧
      (parse_macho_file_for_main_while_recursing C X args w).2.2.tbd.info.others =
        w.tbd.info.others ∧
      (parse_macho_file_for_main_while_recursing C X args w).2.2.tbd.info.fields.others =
        w.tbd.info.fields.others ∧
      (parse_macho_file_for_main_while_recursing C X args w).2.2.tbd.info.fields.exports =
        (X.tbd_create_info_clear
          (parse_macho_file_for_main_while_recursing.info_before_clear C X args
            w)).fields.exports) := by
  constructor
  · intro hret
    have key : (parse_macho_file_for_main C X args w).2.tbd.info =
        clear_create_info X (parse_macho_file_for_main.info_before_clear C X args w)
          w.tbd.info := by
      cases hs : parse_macho_file_for_main.should_continue C X args w with
      | false =>
        rw [parse_macho_file_for_main_of_refuse C X args w hread hparse hs]
        unfold parse_macho_file_for_main.info_before_clear
        rw [hs]
        rfl
      | true =>
        rw [parse_macho_file_for_main_of_continue C X args w hread hparse hs] at hret ⊢
        rcases after_handle_run C X args w.tbd.info w hs with ⟨_, h⟩ | ⟨_, _, h⟩
        · rw [h] at hret
          exact Completion.noConfusion hret
        · exact h
    exact ⟨key, by rw [key]; rfl, by rw [key]; rfl, by rw [key]; rfl⟩
  · intro hret
    have key : (parse_macho_file_for_main_while_recursing C X args w).2.2.tbd.info =
        clear_create_info X
          (parse_macho_file_for_main_while_recursing.info_before_clear C X args w)
          w.tbd.info := by
      cases hs : parse_macho_file_for_main_while_recursing.should_continue C X args w with
      | false =>
        rw [parse_macho_file_for_main_while_recursing_of_refuse C X args w hread hparse hs]
        unfold parse_macho_file_for_main_while_recursing.info_before_clear
        rw [hs]
        rfl
      | true =>
        rw [parse_macho_file_for_main_while_recursing_of_continue C X args w hread hparse hs]
          at hret ⊢
        rcases rec_after_handle_run C X args w.tbd.info w hs with ⟨_, h⟩ | ⟨_, _, _, h⟩
        · rw [h] at hret
          exact Completion.noConfusion hret
        · exact h
    exact ⟨key, by rw [key]; rfl, by rw [key]; rfl, by rw [key]; rfl⟩

/-- Witness of C9: on the sample input both drivers write the tbd and return
`E_PARSE_MACHO_FOR_MAIN_OK`; the parser had put array 99 in the info, and the
info afterwards is the snapshot `(others 20, fields.others 10)` with the cleared
array 1099, not the cleared snapshot array 1003. -/
theorem parse_restores_info_witness :
    ((parse_macho_file_for_main sample_consts (sample_collab_clear_tags 5) (sample_args 0)
        (sample_world 0)).2.tbd.info =
        clear_create_info (sample_collab_clear_tags 5)
          (parse_macho_file_for_main.info_before_clear sample_consts
            (sample_collab_clear_tags 5) (sample_args 0) (sample_world 0))
          (sample_world 0).tbd.info ∧
      (parse_macho_file_for_main sample_consts (sample_collab_clear_tags 5) (sample_args 0)
        (sample_world 0)).2.tbd.info.others = 20 ∧
      (parse_macho_file_for_main sample_consts (sample_collab_clear_tags 5) (sample_args 0)
        (sample_world 0)).2.tbd.info.fields.others = 10 ∧
      (parse_macho_file_for_main sample_consts (sample_collab_clear_tags 5) (sample_args 0)
        (sample_world 0)).2.tbd.info.fields.exports = 99 + 1000) ∧
    ((parse_macho_file_for_main_while_recursing sample_consts (sample_collab_clear_tags 5)
        (sample_args 0) (sample_world 0)).2.2.tbd.info =
        clear_create_info (sample_collab_clear_tags 5)
          (parse_macho_file_for_main_while_recursing.info_before_clear sample_consts
            (sample_collab_clear_tags 5) (sample_args 0) (sample_world 0))
          (sample_world 0).tbd.info ∧
      (parse_macho_file_for_main_while_recursing sample_consts (sample_collab_clear_tags 5)
        (sample_args 0) (sample_world 0)).2.2.tbd.info.others = 20 ∧
      (parse_macho_file_for_main_while_recursing sample_consts (sample_collab_clear_tags 5)
        (sample_args 0) (sample_world 0)).2.2.tbd.info.fields.others = 10 ∧
      (parse_macho_file_for_main_while_recursing sample_consts (sample_collab_clear_tags 5)
        (sample_args 0) (sample_world 0)).2.2.tbd.info.fields.exports = 99 + 1000) :=
  ⟨(parse_restores_info sample_consts (sample_collab_clear_tags 5) (sample_args 0)
      (sample_world 0) .E_PARSE_MACHO_FOR_MAIN_OK (by decide) (by decide)).1 (by decide),
   (parse_restores_info sample_consts (sample_collab_clear_tags 5) (sample_args 0)
      (sample_world 0) .E_PARSE_MACHO_FOR_MAIN_OK (by decide) (by decide)).2 (by decide)⟩

/-- C10 as stated fails: on the sample input with write-path verification
requested and a write path that is not a regular file, the magic is read, the
parser does not return `E_MACHO_FILE_PARSE_NOT_A_MACHO` and the handler answers
true, yet the driver does not return `E_PARSE_MACHO_FOR_MAIN_OK`: the process
ends in `exit(1)`. -/
theorem parse_result_code_exit_counterexample :
    (read_magic (sample_collab (-1) false) (sample_args 1).fd (sample_world 4)).1 = 0 ∧
    driver_parse_result sample_consts (sample_collab (-1) false) (sample_args 1)
      (sample_world 4) ≠ sample_consts.E_MACHO_FILE_PARSE_NOT_A_MACHO ∧
    parse_macho_file_for_main.should_continue sample_consts (sample_collab (-1) false)
      (sample_args 1) (sample_world 4) = true ∧
    (parse_macho_file_for_main sample_consts (sample_collab (-1) false) (sample_args 1)
      (sample_world 4)).1 ≠ .returned .E_PARSE_MACHO_FOR_MAIN_OK ∧
    (parse_macho_file_for_main sample_consts (sample_collab (-1) false) (sample_args 1)
      (sample_world 4)).1 = .exited 1 := by
  refine ⟨by decide, by decide, by decide, by decide, by decide⟩

/-- C10 as amended: `parse_macho_file_for_main` returns
`E_PARSE_MACHO_FOR_MAIN_NOT_A_MACHO` exactly when the magic read fails with
`EOVERFLOW` or the parser returns `E_MACHO_FILE_PARSE_NOT_A_MACHO`, and
`E_PARSE_MACHO_FOR_MAIN_OTHER_ERROR` exactly when the magic read fails with
another `errno` or the handler answers false.  In the remaining case the
process ends in `exit(1)` exactly when write-path verification was requested and
`verify_write_path` rejects the path (the path is set and `stat` fails with an
`errno` other than `ENOENT`, or finds something that is not a regular file), and
the driver returns `E_PARSE_MACHO_FOR_MAIN_OK` otherwise; that includes a write
path whose file cannot be opened (`open_r` gives a negative descriptor or
`fdopen` gives `NULL`), in which case no call writes the tbd.  In its remaining
case `parse_macho_file_for_main_while_recursing` ends the process exactly when
the tbds are not combined and the path cannot be allocated, and otherwise
returns `E_PARSE_MACHO_FOR_MAIN_OTHER_ERROR` when its helper gives `NULL` and
`E_PARSE_MACHO_FOR_MAIN_OK` when it gives a stream. -/
theorem parse_result_code_determined (C : Consts) (X : Collab E R)
    (args : parse_macho_for_main_args) (w : World E R) :
    ((parse_macho_file_for_main C X args w).1 = .returned .E_PARSE_MACHO_FOR_MAIN_NOT_A_MACHO ↔
      ((read_magic X args.fd w).1 ≠ 0 ∧ (read_magic X args.fd w).2.errno = C.EOVERFLOW) ∨
      ((read_magic X args.fd w).1 = 0 ∧
        driver_parse_result C X args w = C.E_MACHO_FILE_PARSE_NOT_A_MACHO)) ∧
    ((parse_macho_file_for_main C X args w).1 = .returned .E_PARSE_MACHO_FOR_MAIN_OTHER_ERROR ↔
      ((read_magic X args.fd w).1 ≠ 0 ∧ (read_magic X args.fd w).2.errno ≠ C.EOVERFLOW) ∨
      ((read_magic X args.fd w).1 = 0 ∧
        driver_parse_result C X args w ≠ C.E_MACHO_FILE_PARSE_NOT_A_MACHO ∧
        parse_macho_file_for_main.should_continue C X args w = false)) ∧
    ((parse_macho_file_for_main C X args w).1 = .exited 1 ↔
      ((read_magic X args.fd w).1 = 0 ∧
        driver_parse_result C X args w ≠ C.E_MACHO_FILE_PARSE_NOT_A_MACHO ∧
        parse_macho_file_for_main.should_continue C X args w = true ∧
        (args.options &&& C.O_PARSE_MACHO_FOR_MAIN_VERIFY_WRITE_PATH ≠ 0 ∧
          ∃ p, (parse_macho_file_for_main.handled_world C X args w).tbd.write_path = some p ∧
            ((∃ e, X.stat (parse_macho_file_for_main.handled_world C X args w) p = .error e ∧
                e ≠ C.ENOENT) ∨
              X.stat (parse_macho_file_for_main.handled_world C X args w) p = .ok false)))) ∧
    ((parse_macho_file_for_main C X args w).1 = .returned .E_PARSE_MACHO_FOR_MAIN_OK ↔
      ((read_magic X args.fd w).1 = 0 ∧
        driver_parse_result C X args w ≠ C.E_MACHO_FILE_PARSE_NOT_A_MACHO ∧
        parse_macho_file_for_main.should_continue C X args w = true ∧
        ¬ (args.options &&& C.O_PARSE_MACHO_FOR_MAIN_VERIFY_WRITE_PATH ≠ 0 ∧
          ∃ p, (parse_macho_file_for_main.handled_world C X args w).tbd.write_path = some p ∧
            ((∃ e, X.stat (parse_macho_file_for_main.handled_world C X args w) p = .error e ∧
                e ≠ C.ENOENT) ∨
              X.stat (parse_macho_file_for_main.handled_world C X args w) p = .ok false)))) ∧
    ((read_magic X args.fd w).1 = 0 →
      driver_parse_result C X args w ≠ C.E_MACHO_FILE_PARSE_NOT_A_MACHO →
      parse_macho_file_for_main.should_continue C X args w = true →
      ¬ (args.options &&& C.O_PARSE_MACHO_FOR_MAIN_VERIFY_WRITE_PATH ≠ 0 ∧
        ∃ p, (parse_macho_file_for_main.handled_world C X args w).tbd.write_path = some p ∧
          ((∃ e, X.stat (parse_macho_file_for_main.handled_world C X args w) p = .error e ∧
              e ≠ C.ENOENT) ∨
            X.stat (parse_macho_file_for_main.handled_world C X args w) p = .ok false)) →
      (parse_macho_file_for_main.handled_world C X args w).tbd.write_path ≠ none →
      (parse_macho_file_for_main.opened C X args w).1 = none →
      (parse_macho_file_for_main C X args w).1 = .returned .E_PARSE_MACHO_FOR_MAIN_OK ∧
      ((parse_macho_file_for_main C X args w).2.events_since w).filterMap Event.written = []) ∧
    (∀ (p : Option Path) (l : Nat) (t : Option Nat) (w0 : World E R),
      ((open_file_for_path C X args p l t w0).1 = none ↔
        (X.open_r w0 p l (open_flags_spec C w0.tbd.flags) C.DEFFILEMODE 493).fd < 0 ∨
        (X.fdopen
          ((w0.emit (.open_r p l (open_flags_spec C w0.tbd.flags) C.DEFFILEMODE 493)).set_errno
            (X.open_r w0 p l (open_flags_spec C w0.tbd.flags) C.DEFFILEMODE 493).errno)
          (X.open_r w0 p l (open_flags_spec C w0.tbd.flags) C.DEFFILEMODE 493).fd).1 = none) ∧
      ((open_file_for_path_while_recursing C X args p l t w0).1 = none ↔
        args.combine_file = none ∧
        ((X.open_r w0 p l (open_flags_spec C w0.tbd.flags) C.DEFFILEMODE 493).fd < 0 ∨
          (X.fdopen
            ((w0.emit (.open_r p l (open_flags_spec C w0.tbd.flags) C.DEFFILEMODE
              493)).set_errno
              (X.open_r w0 p l (open_flags_spec C w0.tbd.flags) C.DEFFILEMODE 493).errno)
            (X.open_r w0 p l (open_flags_spec C w0.tbd.flags) C.DEFFILEMODE 493).fd).1 =
              none))) ∧
    ((read_magic X args.fd w).1 = 0 →
      driver_parse_result C X args w ≠ C.E_MACHO_FILE_PARSE_NOT_A_MACHO →
      parse_macho_file_for_main_while_recursing.should_continue C X args w = true →
      ((parse_macho_file_for_main_while_recursing C X args w).1 = .exited 1 ↔
        ((parse_macho_file_for_main_while_recursing.handled_world C X args w).tbd.flags &&&
            C.F_TBD_FOR_MAIN_COMBINE_TBDS = 0 ∧
          X.tbd_for_main_create_write_path_for_recursing
            (parse_macho_file_for_main_while_recursing.handled_world C X args w) args.dir_path
            args.dir_path_length args.name args.name_length = none)) ∧
      (¬ ((parse_macho_file_for_main_while_recursing.handled_world C X args w).tbd.flags &&&
            C.F_TBD_FOR_MAIN_COMBINE_TBDS = 0 ∧
          X.tbd_for_main_create_write_path_for_recursing
            (parse_macho_file_for_main_while_recursing.handled_world C X args w) args.dir_path
            args.dir_path_length args.name args.name_length = none) →
        ∃ pl, (parse_macho_file_for_main_while_recursing.prepared C X args w).1 =
          .returned pl) ∧
      ∀ pl, (parse_macho_file_for_main_while_recursing.prepared C X args w).1 = .returned pl →
        ((parse_macho_file_for_main_while_recursing.opened C X args w pl).1 = none →
          (parse_macho_file_for_main_while_recursing C X args w).1 =
            .returned .E_PARSE_MACHO_FOR_MAIN_OTHER_ERROR) ∧
        ((parse_macho_file_for_main_while_recursing.opened C X args w pl).1 ≠ none →
          (parse_macho_file_for_main_while_recursing C X args w).1 =
            .returned .E_PARSE_MACHO_FOR_MAIN_OK)) := by
  refine ⟨?_, ?_, ?_, ?_, ?_, ?_, ?_⟩
  · rcases parse_macho_file_for_main_cases C X args w with
      ⟨h1, h2, h3⟩ | ⟨h1, h2, h3⟩ | ⟨h1, h2, h3⟩ | ⟨h1, h2, h3, h4, _⟩ | ⟨h1, h2, h3, h4, _⟩
    · simp [h1, h2, h3]
    · simp [h1, h2, h3]
    · simp [h1, h2, h3]
    · simp [h1, h2, h3, h4]
    · rcases h4 with h4 | ⟨_, h4⟩ <;> simp [h1, h2, h3, h4]
  · rcases parse_macho_file_for_main_cases C X args w with
      ⟨h1, h2, h3⟩ | ⟨h1, h2, h3⟩ | ⟨h1, h2, h3⟩ | ⟨h1, h2, h3, h4, _⟩ | ⟨h1, h2, h3, h4, _⟩
    · simp [h1, h2, h3]
    · simp [h1, h2, h3]
    · simp [h1, h2, h3]
    · simp [h1, h2, h3, h4]
    · rcases h4 with h4 | ⟨_, h4⟩ <;> simp [h1, h2, h3, h4]
  · rcases parse_macho_file_for_main_cases C X args w with
      ⟨h1, h2, h3⟩ | ⟨h1, h2, h3⟩ | ⟨h1, h2, h3⟩ | ⟨h1, h2, h3, h4, _⟩ | ⟨h1, h2, h3, _, _⟩
    · exact ⟨fun h => by rw [h3] at h; exact Completion.noConfusion h, fun h => absurd h.1 h1⟩
    · exact ⟨fun h => by rw [h3] at h; exact Completion.noConfusion h, fun h => absurd h.1 h1⟩
    · exact ⟨fun h => by rw [h3] at h; exact Completion.noConfusion h,
        fun h => absurd h2 h.2.1⟩
    · refine ⟨fun h => by rw [h4] at h; exact Completion.noConfusion h, fun h => ?_⟩
      rw [h3] at h
      exact Bool.noConfusion h.2.2.1
    · rcases parse_macho_file_for_main_remaining C X args w h1 h2 h3 with ⟨h5, h6⟩ | ⟨h5, _, h6⟩
      · exact ⟨fun _ => ⟨h1, h2, h3, h5⟩, fun _ => h6⟩
      · exact ⟨fun h => by rw [h6] at h; exact Completion.noConfusion h,
          fun h => absurd h.2.2.2 h5⟩
  · rcases parse_macho_file_for_main_cases C X args w with
      ⟨h1, h2, h3⟩ | ⟨h1, h2, h3⟩ | ⟨h1, h2, h3⟩ | ⟨h1, h2, h3, h4, _⟩ | ⟨h1, h2, h3, _, _⟩
    · exact ⟨fun h => (by rw [h3] at h; cases h), fun h => absurd h.1 h1⟩
    · exact ⟨fun h => (by rw [h3] at h; cases h), fun h => absurd h.1 h1⟩
    · exact ⟨fun h => (by rw [h3] at h; cases h), fun h => absurd h2 h.2.1⟩
    · refine ⟨fun h => (by rw [h4] at h; cases h), fun h => ?_⟩
      rw [h3] at h
      exact Bool.noConfusion h.2.2.1
    · rcases parse_macho_file_for_main_remaining C X args w h1 h2 h3 with ⟨h5, h6⟩ | ⟨h5, _, h6⟩
      · exact ⟨fun h => by rw [h6] at h; exact Completion.noConfusion h,
          fun h => absurd h5 h.2.2.2⟩
      · exact ⟨fun _ => ⟨h1, h2, h3, h5⟩, fun _ => h6⟩
  · intro hread hparse hs hrej hwp ho
    rcases parse_macho_file_for_main_remaining C X args w hread hparse hs with
      ⟨h5, _⟩ | ⟨_, hv, h6⟩
    · exact absurd h5 hrej
    · refine ⟨h6, ?_⟩
      rw [← verified_tbd] at hwp
      exact parse_macho_file_for_main_written_of_open_none C X args w hread hparse hs hv hwp ho
  · intro p l t w0
    exact ⟨open_file_for_path_none_iff C X args p l t w0,
      open_file_for_path_while_recursing_none_iff C X args p l t w0⟩
  · intro hread hparse hs
    rw [parse_macho_file_for_main_while_recursing_of_continue C X args w hread hparse hs,
      ← prepared_exit_iff]
    rcases rec_after_handle_run C X args w.tbd.info w hs with ⟨h1, h2⟩ | ⟨pl, h1, h2, _⟩
    · refine ⟨⟨fun _ => h1, fun _ => h2⟩, fun h => absurd h1 h, ?_⟩
      intro pl hpl
      rw [h1] at hpl
      exact Completion.noConfusion hpl
    · refine ⟨⟨fun h => ?_, fun h => ?_⟩, fun _ => ⟨pl, h1⟩, ?_⟩
      · rcases h2 with ⟨_, h3⟩ | ⟨_, h3⟩ <;> (rw [h3] at h; exact Completion.noConfusion h)
      · rw [h1] at h
        exact Completion.noConfusion h
      · intro pl2 hpl2
        rw [h1] at hpl2
        cases hpl2
        rcases h2 with ⟨h3, h4⟩ | ⟨h3, h4⟩
        · exact ⟨fun _ => h4, fun h => absurd h3 h⟩
        · exact ⟨fun h => absurd h h3, fun _ => h4⟩

/-- Witness of C10 as amended: without write-path verification the driver
returns `E_PARSE_MACHO_FOR_MAIN_OK` and writes nothing both when `open_r` fails
and when `fdopen` gives `NULL`, and the recursing driver returns
`E_PARSE_MACHO_FOR_MAIN_OTHER_ERROR` in both cases.  With verification requested
the process ends in `exit(1)` when the write path is not a regular file and when
`stat` fails with `errno = 13`, and the driver returns
`E_PARSE_MACHO_FOR_MAIN_OK` when `stat` fails with `errno = ENOENT`.  The
recursing driver ends the process when the path cannot be allocated. -/
theorem parse_result_code_determined_witness :
    ((parse_macho_file_for_main sample_consts (sample_collab (-1) true) (sample_args 0)
        (sample_world 4)).1 = .returned .E_PARSE_MACHO_FOR_MAIN_OK ∧
      ((parse_macho_file_for_main sample_consts (sample_collab (-1) true) (sample_args 0)
        (sample_world 4)).2.events_since (sample_world 4)).filterMap Event.written = []) ∧
    ((parse_macho_file_for_main sample_consts sample_collab_fdopen_fails (sample_args 0)
        (sample_world 4)).1 = .returned .E_PARSE_MACHO_FOR_MAIN_OK ∧
      ((parse_macho_file_for_main sample_consts sample_collab_fdopen_fails (sample_args 0)
        (sample_world 4)).2.events_since (sample_world 4)).filterMap Event.written = []) ∧
    (parse_macho_file_for_main_while_recursing sample_consts (sample_collab (-1) true)
      (sample_args 0) (sample_world 4)).1 = .returned .E_PARSE_MACHO_FOR_MAIN_OTHER_ERROR ∧
    (parse_macho_file_for_main_while_recursing sample_consts sample_collab_fdopen_fails
      (sample_args 0) (sample_world 4)).1 = .returned .E_PARSE_MACHO_FOR_MAIN_OTHER_ERROR ∧
    (parse_macho_file_for_main sample_consts (sample_collab (-1) false) (sample_args 1)
      (sample_world 4)).1 = .exited 1 ∧
    (parse_macho_file_for_main sample_consts (sample_collab_stat_fails 13) (sample_args 1)
      (sample_world 4)).1 = .exited 1 ∧
    (parse_macho_file_for_main sample_consts (sample_collab_stat_fails 2) (sample_args 1)
      (sample_world 4)).1 = .returned .E_PARSE_MACHO_FOR_MAIN_OK ∧
    (parse_macho_file_for_main_while_recursing sample_consts sample_collab_alloc_fails
      (sample_args 0) (sample_world 4)).1 = .exited 1 :=
  ⟨(parse_result_code_determined sample_consts (sample_collab (-1) true) (sample_args 0)
      (sample_world 4)).2.2.2.2.1 (by decide) (by decide) (by decide)
      (fun h => absurd h.1 (by decide)) (by decide) (by decide),
   (parse_result_code_determined sample_consts sample_collab_fdopen_fails (sample_args 0)
      (sample_world 4)).2.2.2.2.1 (by decide) (by decide) (by decide)
      (fun h => absurd h.1 (by decide)) (by decide) (by decide),
   (((parse_result_code_determined sample_consts (sample_collab (-1) true) (sample_args 0)
      (sample_world 4)).2.2.2.2.2.2 (by decide) (by decide) (by decide)).2.2
      (some "lib", 5) (by decide)).1 (by decide),
   (((parse_result_code_determined sample_consts sample_collab_fdopen_fails (sample_args 0)
      (sample_world 4)).2.2.2.2.2.2 (by decide) (by decide) (by decide)).2.2
      (some "lib", 5) (by decide)).1 (by decide),
   (parse_result_code_determined sample_consts (sample_collab (-1) false) (sample_args 1)
      (sample_world 4)).2.2.1.mpr
      ⟨by decide, by decide, by decide, by decide, "out", rfl, Or.inr rfl⟩,
   (parse_result_code_determined sample_consts (sample_collab_stat_fails 13) (sample_args 1)
      (sample_world 4)).2.2.1.mpr
      ⟨by decide, by decide, by decide, by decide, "out", rfl, Or.inl ⟨13, rfl, by decide⟩⟩,
   (parse_result_code_determined sample_consts (sample_collab_stat_fails 2) (sample_args 1)
      (sample_world 4)).2.2.2.1.mpr
      ⟨by decide, by decide, by decide, fun h => by
        obtain ⟨_, p, _, ⟨e, he, hne⟩ | h⟩ := h
        · have he2 : (Except.error 2 : Except Int Bool) = Except.error e := he
          exact hne (Except.error.inj he2).symm
        · have h2 : (Except.error 2 : Except Int Bool) = Except.ok false := h
          exact Except.noConfusion h2⟩,
   ((parse_result_code_determined sample_consts sample_collab_alloc_fails (sample_args 0)
      (sample_world 4)).2.2.2.2.2.2 (by decide) (by decide) (by decide)).1.mpr
      ⟨by decide, rfl⟩⟩

/-- C11: with `n = *magic_in_size_in`, `read_magic` returns 0 without any call
and with the state as it was when `n >= 4`; when `n < 4` it makes exactly one
read, of `4 - n` bytes at offset `n` of the buffer (the `uint64_t` difference
does not wrap: `n` plus the size is 4), and returns 0 with `*magic_in_size_in`
set to 4 when the read succeeds, 1 with `*magic_in_size_in` as it was when it
fails.  Hence a return of 0 leaves `*magic_in_size_in >= 4`. -/
theorem read_magic_contract (X : Collab E R) (fd : Int) (w : World E R) :
    (4 ≤ w.magic_in_size →
      read_magic X fd w = (0, w) ∧ (read_magic X fd w).2.events_since w = []) ∧
    (w.magic_in_size < 4 →
      (read_magic X fd w).2.events_since w =
        [.our_read fd w.magic_in_size (uint64_sub 4 w.magic_in_size)] ∧
      w.magic_in_size + uint64_sub 4 w.magic_in_size = 4 ∧
      (∀ bytes,
        X.our_read w fd w.magic_in_size (uint64_sub 4 w.magic_in_size) = .ok bytes →
        (read_magic X fd w).1 = 0 ∧
        (read_magic X fd w).2.magic_in_size = 4 ∧
        (read_magic X fd w).2.magic = w.magic.take w.magic_in_size ++ bytes) ∧
      (∀ e,
        X.our_read w fd w.magic_in_size (uint64_sub 4 w.magic_in_size) = .error e →
        (read_magic X fd w).1 = 1 ∧
        (read_magic X fd w).2.magic_in_size = w.magic_in_size ∧
        (read_magic X fd w).2.errno = e)) ∧
    ((read_magic X fd w).1 = 0 → 4 ≤ (read_magic X fd w).2.magic_in_size) ∧
    ((read_magic X fd w).1 = 0 ∨ (read_magic X fd w).1 = 1) := by
  refine ⟨?_, ?_, ?_, ?_⟩
  · intro h
    have h0 : read_magic X fd w = (0, w) := by
      unfold read_magic
      dsimp only
      rw [if_pos h]
    refine ⟨h0, ?_⟩
    rw [h0]
    exact List.drop_length _
  · intro h
    have hn : ¬ w.magic_in_size ≥ 4 := Nat.not_le.mpr h
    have hsub : w.magic_in_size + uint64_sub 4 w.magic_in_size = 4 := by
      unfold uint64_sub UINT64_SIZE
      omega
    refine ⟨?_, hsub, ?_, ?_⟩
    · unfold read_magic World.events_since
      dsimp only
      rw [if_neg hn]
      split <;> exact List.drop_left _ _
    · intro bytes hb
      unfold read_magic
      dsimp only
      rw [if_neg hn, hb]
      exact ⟨rfl, rfl, rfl⟩
    · intro e he
      unfold read_magic
      dsimp only
      rw [if_neg hn, he]
      exact ⟨rfl, rfl, rfl⟩
  · unfold read_magic
    dsimp only
    split_ifs with h
    · exact fun _ => h
    · split
      · exact fun h0 => absurd (show (1 : Int) = 0 from h0) (by decide)
      · exact fun _ => Nat.le_refl 4
  · unfold read_magic
    dsimp only
    split_ifs
    · exact Or.inl rfl
    · split
      · exact Or.inr rfl
      · exact Or.inl rfl

/-- Witness of C11: from an empty buffer the sample read asks for 4 bytes at
offset 0 and leaves the size at 4; a failing read returns 1 and leaves the
size at 0. -/
theorem read_magic_contract_witness :
    ((read_magic (sample_collab 5 true) 3 (sample_world 0)).2.events_since (sample_world 0) =
        [.our_read 3 0 4] ∧
      (read_magic (sample_collab 5 true) 3 (sample_world 0)).1 = 0 ∧
      (read_magic (sample_collab 5 true) 3 (sample_world 0)).2.magic_in_size = 4 ∧
      (read_magic (sample_collab 5 true) 3 (sample_world 0)).2.magic = [254, 254, 254, 254]) ∧
    ((read_magic sample_collab_read_fails 3 (sample_world 0)).1 = 1 ∧
      (read_magic sample_collab_read_fails 3 (sample_world 0)).2.magic_in_size = 0 ∧
      (read_magic sample_collab_read_fails 3 (sample_world 0)).2.errno = 75) :=
  ⟨⟨((read_magic_contract (sample_collab 5 true) 3 (sample_world 0)).2.1 (by decide)).1,
    ((read_magic_contract (sample_collab 5 true) 3 (sample_world 0)).2.1 (by decide)).2.2.1
      [254, 254, 254, 254] rfl⟩,
   ((read_magic_contract sample_collab_read_fails 3 (sample_world 0)).2.1 (by decide)).2.2.2
      75 rfl⟩

end DriverClaims

end Tbd
